import Mathlib

/-!
Verification development for the Pool Scout Pro ingestion pipeline.

The Python services under `src/` are shallowly embedded as executable Lean
definitions: SQLite tables become lists of record structures, per-call
service methods become state-passing functions, wall-clock instants become
natural numbers (minutes), and regular-expression probes become explicit
character-list scanners.  The theorems at the end of the file settle the
behavioural claims about the services against these embeddings.
-/

set_option maxRecDepth 4000

namespace PoolScout

/-! ## Character and string helpers (Python semantics, ASCII fragment) -/

/-- Whitespace characters recognised by Python's `str.strip` / `\s` (ASCII). -/
def pyWs (c : Char) : Bool :=
  c = ' ' || c = '\t' || c = '\n' || c = '\r' || c = '\x0b' || c = '\x0c'

/-- ASCII lower-casing of a character list (Python `str.lower`). -/
def lowerCL (l : List Char) : List Char := l.map Char.toLower

/-- ASCII upper-casing of a character list (Python `str.upper`). -/
def upperCL (l : List Char) : List Char := l.map Char.toUpper

/-- Drop whitespace from the end of a character list. -/
def dropTrailWs (l : List Char) : List Char :=
  (l.reverse.dropWhile pyWs).reverse

/-- Python `str.strip()` on a character list. -/
def stripCL (l : List Char) : List Char :=
  dropTrailWs (l.dropWhile pyWs)

/-- Exact prefix test on character lists. -/
def prefixCL : List Char → List Char → Bool
  | [], _ => true
  | _ :: _, [] => false
  | p :: ps, c :: cs => p = c && prefixCL ps cs

/-- Case-insensitive prefix test on character lists. -/
def prefixCiCL (p l : List Char) : Bool :=
  prefixCL (lowerCL p) (lowerCL l)

/-- Substring containment on character lists (Python `in` on `str`). -/
def containsCL (hay pat : List Char) : Bool :=
  match hay with
  | [] => prefixCL pat []
  | _ :: rest => prefixCL pat hay || containsCL rest pat

/-- Substring containment on strings (Python `pat in hay`). -/
def pyContains (hay pat : String) : Bool := containsCL hay.data pat.data

/-- Python `str.strip()` on strings. -/
def pyStrip (s : String) : String := ⟨stripCL s.data⟩

/-- Python `str.lower()` (ASCII fragment). -/
def pyLower (s : String) : String := ⟨lowerCL s.data⟩

/-- Python `str.upper()` (ASCII fragment). -/
def pyUpper (s : String) : String := ⟨upperCL s.data⟩

/-- ASCII letter test (these are exactly the cased ASCII characters). -/
def asciiAlpha (c : Char) : Bool :=
  ('a' ≤ c && c ≤ 'z') || ('A' ≤ c && c ≤ 'Z')

/-- One step of Python `str.title()`: `prevCased` says whether the previous
character was a cased (ASCII letter) character. -/
def titleCL : Bool → List Char → List Char
  | _, [] => []
  | prevCased, c :: cs =>
    if asciiAlpha c then
      (if prevCased then c.toLower else c.toUpper) :: titleCL true cs
    else
      c :: titleCL false cs

/-- Python `str.title()` (ASCII fragment). -/
def pyTitle (s : String) : String := ⟨titleCL false s.data⟩

/-- Python `str.split("\n")`: split a character list at newline characters,
keeping empty segments. -/
def splitLinesCL : List Char → List (List Char)
  | [] => [[]]
  | c :: cs =>
    let rest := splitLinesCL cs
    if c = '\n' then [] :: rest
    else
      match rest with
      | [] => [[c]]
      | seg :: segs => (c :: seg) :: segs

/-- Python `text.split("\n")` on strings. -/
def pySplitLines (s : String) : List String :=
  (splitLinesCL s.data).map (fun l => ⟨l⟩)

/-- The text after the first occurrence of `pat` in `hay`
(Python `hay.split(pat, 1)[1]`, defined when `pat in hay`). -/
def afterFirstCL (hay pat : List Char) : List Char :=
  match hay with
  | [] => []
  | _ :: rest =>
    if prefixCL pat hay then hay.drop pat.length
    else afterFirstCL rest pat

/-- `hay.split(pat, 1)[1]` on strings (callers guard with `pyContains`). -/
def pyAfterFirst (hay pat : String) : String := ⟨afterFirstCL hay.data pat.data⟩

/-! ## FailedDownloadService (src/src/services/failed_download_service.py)

The `failed_downloads` SQLite table is embedded as a list of records in
rowid order.  Wall-clock instants and the `next_retry_at` column are
modelled as natural numbers counting minutes (the service stores ISO
timestamp strings whose SQL ordering agrees with chronological order). -/

/-- One row of the `failed_downloads` table. -/
structure FailedDownloadRecord where
  id : Nat
  facilityName : String
  inspectionId : Option String
  pdfUrl : Option String
  inspectionDate : Option String
  failureReason : Option String
  failureDetails : Option String
  retryCount : Nat
  maxRetries : Nat
  /-- `next_retry_at`; `none` models SQL NULL. -/
  nextRetryAt : Option Nat
  originalBatchId : Option String
  status : String
  createdAt : Nat
  lastRetryAt : Option Nat
  deriving Repr, DecidableEq

/-- The `failed_downloads` table in rowid order. -/
abbrev FailedTable := List FailedDownloadRecord

/-- Fresh rowid for an insert (SQLite allocates one above every existing id). -/
def nextRowId (t : FailedTable) : Nat :=
  (t.map (·.id)).foldr max 0 + 1

/-- `FailedDownloadService.store_failed_download`: insert a pending record
with `retry_count = 0` and `next_retry_at = now + 5` minutes; returns the
new record id and the updated table.  `failure_reason or 'unknown'` maps
empty/absent reasons to `"unknown"`. -/
def storeFailedDownload (now : Nat) (facilityName : String)
    (pdfUrl : Option String) (inspectionId : Option String)
    (inspectionDate : Option String) (failureReason : Option String)
    (failureDetails : Option String) (batchId : Option String)
    (maxRetries : Nat) (t : FailedTable) : Nat × FailedTable :=
  let reason := match failureReason with
    | none => "unknown"
    | some r => if r = "" then "unknown" else r
  let rid := nextRowId t
  let rec' : FailedDownloadRecord :=
    { id := rid
      facilityName := facilityName
      inspectionId := inspectionId
      pdfUrl := pdfUrl
      inspectionDate := inspectionDate
      failureReason := some reason
      failureDetails := failureDetails
      retryCount := 0
      maxRetries := maxRetries
      nextRetryAt := some (now + 5)
      originalBatchId := batchId
      status := "pending"
      createdAt := now
      lastRetryAt := none }
  (rid, t ++ [rec'])

/-- The SQL filter of `get_records_ready_for_retry`:
`status = 'pending' AND retry_count < max_retries AND
(next_retry_at IS NULL OR next_retry_at <= now)`. -/
def readyForRetry (now : Nat) (r : FailedDownloadRecord) : Bool :=
  r.status = "pending" && r.retryCount < r.maxRetries &&
    (r.nextRetryAt.isNone || (r.nextRetryAt.getD 0 ≤ now))

/-- Insert into a list sorted by `created_at` (stable: equal keys keep
earlier rows first, as `ORDER BY created_at ASC` preserves no more). -/
def insertByCreated (r : FailedDownloadRecord) :
    List FailedDownloadRecord → List FailedDownloadRecord
  | [] => [r]
  | x :: xs =>
    if x.createdAt ≤ r.createdAt then x :: insertByCreated r xs
    else r :: x :: xs

/-- Sort rows by `created_at` ascending (`ORDER BY created_at ASC`). -/
def sortByCreated : List FailedDownloadRecord → List FailedDownloadRecord
  | [] => []
  | x :: xs => insertByCreated x (sortByCreated xs)

/-- `FailedDownloadService.get_records_ready_for_retry`: the pending rows
whose retry budget is not exhausted and whose `next_retry_at` is NULL or
due, ordered by creation time, limited to `limit` rows. -/
def getRecordsReadyForRetry (now : Nat) (limit : Nat) (t : FailedTable) :
    List FailedDownloadRecord :=
  (sortByCreated (t.filter (readyForRetry now))).take limit

/-- `FailedDownloadService.update_retry_attempt`: on success mark the row
`succeeded`; on failure increment `retry_count`, and either mark the row
`failed` (when the new count reaches `max_retries`) or schedule
`next_retry_at = now + 5 * 3 ^ new_count` minutes, leaving it `pending`. -/
def updateRetryAttempt (now : Nat) (recordId : Nat) (success : Bool)
    (failureReason failureDetails : Option String) (t : FailedTable) :
    FailedTable :=
  if success then
    t.map (fun r =>
      if r.id = recordId then
        { r with status := "succeeded", lastRetryAt := some now }
      else r)
  else
    match t.find? (fun r => r.id = recordId) with
    | none => t
    | some row =>
      let newCount := row.retryCount + 1
      if row.maxRetries ≤ newCount then
        t.map (fun r =>
          if r.id = recordId then
            { r with retryCount := newCount, status := "failed",
                     lastRetryAt := some now,
                     failureReason := failureReason,
                     failureDetails := failureDetails }
          else r)
      else
        let delay := 5 * 3 ^ newCount
        t.map (fun r =>
          if r.id = recordId then
            { r with retryCount := newCount,
                     lastRetryAt := some now,
                     nextRetryAt := some (now + delay),
                     failureReason := failureReason,
                     failureDetails := failureDetails }
          else r)

/-! ## DownloadLockService (src/src/services/download_lock_service.py)

Two embeddings of the single-flight guard.

The *functional* model mirrors one `acquire`/`release` call inside one
worker: the module-level `_PROCESS_HELD`/`_PROCESS_HOLDER` pair and this
worker's view of the lock file are explicit state, and the behaviour of
the OS calls inside the `try` block (`os.open`, `flock`, write) is an
input `FlockEnv`: they may succeed, report the advisory lock busy
(`BlockingIOError`), or raise.  `acquire` is a total Lean function — the
shape of the Python contract "never throws, returns structured result".

The *interleaving* model underneath runs any number of callers (several
per OS process allowed) against shared state, one atomic step at a time:
the mutex-protected check-and-set of the process flag is one step, the
`flock` attempt is one step (atomic in the OS), and the file write and
the three stages of `release` are separate steps. -/

/-- Holder metadata, as written into the lock file (`{job_id, pid, ts}`). -/
structure Holder where
  jobId : String
  pid : Int
  ts : Int
  deriving Repr, DecidableEq

/-- State visible to one `DownloadLockService` call: the module-level
process-local guard and this worker's file-lock bookkeeping. -/
structure WorkerState where
  procHeld : Bool
  procHolder : Option Holder
  ownsFileLock : Bool
  fileContent : Option Holder
  deriving Repr, DecidableEq

/-- Outcome of the OS portion of `acquire` (everything inside the `try`). -/
inductive FlockEnv where
  /-- `flock` succeeds and the holder data is written. -/
  | free : FlockEnv
  /-- `flock` raises `BlockingIOError`; the payload is what
  `_read_holder` recovers from the lock file (`none` = unreadable). -/
  | busy : Option Holder → FlockEnv
  /-- some OS call raises an unexpected exception with this message. -/
  | raised : String → FlockEnv
  deriving Repr, DecidableEq

/-- Structured result of `acquire` (`(acquired, info)` in the source). -/
structure AcquireOutcome where
  granted : Bool
  message : String
  holderInfo : Option Holder
  deriving Repr, DecidableEq

/-- The denial message of the process-local guard
(`"Local download already in progress (job …, pid …, age …s)."`);
`.get(key, '?')` defaults and the `ts or time.time()` fallback included. -/
def localDenyMsg (h : Option Holder) (now : Int) : String :=
  let j := match h with | some h => h.jobId | none => "?"
  let p := match h with | some h => toString h.pid | none => "?"
  let age := now - (match h with
    | some h => if h.ts = 0 then now else h.ts
    | none => now)
  "Local download already in progress (job " ++ j ++ ", pid " ++ p ++
    ", age " ++ toString age ++ "s)."

/-- The denial message when another worker holds the advisory file lock. -/
def busyDenyMsg (h : Option Holder) (now : Int) : String :=
  match h with
  | some h =>
    "Download already in progress (job " ++ h.jobId ++ ", pid " ++
      toString h.pid ++ ", age " ++ toString (now - h.ts) ++ "s)."
  | none => "Download already in progress by another worker."

/-- `DownloadLockService.acquire(job_id)`. -/
def acquire (env : FlockEnv) (now : Int) (jobId : String) (pid : Int)
    (s : WorkerState) : AcquireOutcome × WorkerState :=
  if s.procHeld then
    ({ granted := false, message := localDenyMsg s.procHolder now,
       holderInfo := s.procHolder }, s)
  else
    let holder : Holder := ⟨jobId, pid, now⟩
    let s1 := { s with procHeld := true, procHolder := some holder }
    match env with
    | .raised e =>
      ({ granted := false, message := "Failed to acquire lock: " ++ e,
         holderInfo := none },
       { s1 with procHeld := false, procHolder := none })
    | .busy fileHolder =>
      ({ granted := false, message := busyDenyMsg fileHolder now,
         holderInfo := fileHolder },
       { s1 with procHeld := false, procHolder := none })
    | .free =>
      ({ granted := true, message := "Lock acquired",
         holderInfo := some holder },
       { s1 with ownsFileLock := true, fileContent := some holder })

/-- `DownloadLockService.release()`: drop the file lock and delete the
lock file when owned, then always clear the process-local guard. -/
def releaseLock (s : WorkerState) : WorkerState :=
  if s.ownsFileLock then
    { procHeld := false, procHolder := none,
      ownsFileLock := false, fileContent := none }
  else
    { s with procHeld := false, procHolder := none }

/-! ### Interleaving model -/

/-- Program counter of one caller working through acquire then release. -/
inductive CPhase where
  | idle          -- has not called acquire yet
  | localHeld     -- process flag set, before the flock attempt
  | flocked       -- flock granted, holder data not yet written
  | granted       -- acquire returned (True, …)
  | unlocked      -- release: flock dropped
  | removed       -- release: lock file deleted
  | done          -- release: process flag cleared, finished
  | deniedLocal   -- acquire returned denial from the process guard
  | deniedFlock   -- acquire returned denial from the file lock
  deriving Repr, DecidableEq

/-- Static configuration: each caller's OS process and job id. -/
structure LockCfg where
  pid : Nat → Nat
  job : Nat → String

/-- Shared state of the interleaved system: the advisory file lock, the
lock file's contents, and each process's module-level guard flag. -/
structure SysState where
  flock : Option Nat
  fileData : Option (Nat × Nat)   -- (caller, its pid) written in the file
  localHeld : Nat → Bool          -- per OS process (module-level flag)
  phase : Nat → CPhase

/-- All callers idle, no lock held, no file. -/
def initSys : SysState :=
  { flock := none, fileData := none,
    localHeld := fun _ => false, phase := fun _ => .idle }

/-- One atomic step of one caller.  Mutation points follow the source:
the guarded check-and-set (lines 37–50), the non-blocking `flock`
(line 61) with its deny path releasing the local flag (line 69), the
holder write (lines 77–80), and release's unlock / file delete / local
clear (lines 91–104). -/
inductive LockStep (cfg : LockCfg) : SysState → SysState → Prop where
  | localOk (s : SysState) (c : Nat) :
      s.phase c = .idle → s.localHeld (cfg.pid c) = false →
      LockStep cfg s
        { s with localHeld := fun p => if p = cfg.pid c then true else s.localHeld p,
                 phase := fun x => if x = c then .localHeld else s.phase x }
  | localBusy (s : SysState) (c : Nat) :
      s.phase c = .idle → s.localHeld (cfg.pid c) = true →
      LockStep cfg s
        { s with phase := fun x => if x = c then .deniedLocal else s.phase x }
  | flockOk (s : SysState) (c : Nat) :
      s.phase c = .localHeld → s.flock = none →
      LockStep cfg s
        { s with flock := some c,
                 phase := fun x => if x = c then .flocked else s.phase x }
  | flockBusy (s : SysState) (c d : Nat) :
      s.phase c = .localHeld → s.flock = some d →
      LockStep cfg s
        { s with localHeld := fun p => if p = cfg.pid c then false else s.localHeld p,
                 phase := fun x => if x = c then .deniedFlock else s.phase x }
  | writeHolder (s : SysState) (c : Nat) :
      s.phase c = .flocked →
      LockStep cfg s
        { s with fileData := some (c, cfg.pid c),
                 phase := fun x => if x = c then .granted else s.phase x }
  | unlock (s : SysState) (c : Nat) :
      s.phase c = .granted →
      LockStep cfg s
        { s with flock := none,
                 phase := fun x => if x = c then .unlocked else s.phase x }
  | removeFile (s : SysState) (c : Nat) :
      s.phase c = .unlocked →
      LockStep cfg s
        { s with fileData := none,
                 phase := fun x => if x = c then .removed else s.phase x }
  | clearLocal (s : SysState) (c : Nat) :
      s.phase c = .removed →
      LockStep cfg s
        { s with localHeld := fun p => if p = cfg.pid c then false else s.localHeld p,
                 phase := fun x => if x = c then .done else s.phase x }

/-- Reachability from the initial state. -/
def SysReach (cfg : LockCfg) (s : SysState) : Prop :=
  Relation.ReflTransGen (LockStep cfg) initSys s

/-- Caller `c` currently owns the single-flight right: its acquire won
the flock and its release has not yet dropped it. -/
def ActiveHolder (s : SysState) (c : Nat) : Prop :=
  s.phase c = .flocked ∨ s.phase c = .granted

/-- The inductive invariant tying ownership phases to the file lock. -/
def LockInv (s : SysState) : Prop :=
  ∀ c, ActiveHolder s c ↔ s.flock = some c

theorem lockInv_init : LockInv initSys := by
  intro c
  constructor
  · rintro (h | h) <;> simp [initSys] at h
  · intro h; simp [initSys] at h

/-- When caller `c` is not in an owning phase, a phase change at `c` to a
non-owning phase preserves the invariant if the flock is untouched. -/
theorem lockInv_phase_update {s : SysState} (hs : LockInv s) (c : Nat)
    (ph : CPhase) (hnotNew : ph ≠ .flocked ∧ ph ≠ .granted)
    (hnotOld : ¬ ActiveHolder s c) :
    LockInv { s with phase := fun x => if x = c then ph else s.phase x } := by
  intro x
  by_cases hx : x = c
  · subst hx
    simp only [ActiveHolder, if_pos rfl]
    constructor
    · rintro (h | h)
      · exact absurd h hnotNew.1
      · exact absurd h hnotNew.2
    · intro hfl
      exact absurd ((hs x).mpr hfl) hnotOld
  · simp only [ActiveHolder, if_neg hx]
    exact hs x

theorem lockStep_preserves_inv {cfg : LockCfg} {s s' : SysState}
    (hs : LockInv s) (hstep : LockStep cfg s s') : LockInv s' := by
  cases hstep with
  | localOk c hph hlh =>
    exact lockInv_phase_update hs c .localHeld (by constructor <;> simp)
      (by rintro (h | h) <;> rw [hph] at h <;> cases h)
  | localBusy c hph hlh =>
    exact lockInv_phase_update hs c .deniedLocal (by constructor <;> simp)
      (by rintro (h | h) <;> rw [hph] at h <;> cases h)
  | flockOk c hph hfl =>
    intro x
    by_cases hx : x = c
    · subst hx
      simp [ActiveHolder]
    · simp only [ActiveHolder, if_neg hx]
      constructor
      · intro hact
        have := (hs x).mp hact
        rw [hfl] at this; cases this
      · intro hfx
        simp only [Option.some.injEq] at hfx
        exact absurd hfx.symm hx
  | flockBusy c d hph hfl =>
    exact lockInv_phase_update hs c .deniedFlock (by constructor <;> simp)
      (by rintro (h | h) <;> rw [hph] at h <;> cases h)
  | writeHolder c hph =>
    intro x
    have hflc : s.flock = some c := (hs c).mp (Or.inl hph)
    by_cases hx : x = c
    · subst hx
      simp [ActiveHolder, hflc]
    · simp only [ActiveHolder, if_neg hx]
      exact hs x
  | unlock c hph =>
    intro x
    have hflc : s.flock = some c := (hs c).mp (Or.inr hph)
    by_cases hx : x = c
    · subst hx
      simp [ActiveHolder]
    · simp only [ActiveHolder, if_neg hx]
      constructor
      · intro hact
        have := (hs x).mp hact
        rw [hflc] at this
        simp only [Option.some.injEq] at this
        exact absurd this.symm hx
      · intro h; exact Option.noConfusion h
  | removeFile c hph =>
    exact lockInv_phase_update hs c .removed (by constructor <;> simp)
      (by rintro (h | h) <;> rw [hph] at h <;> cases h)
  | clearLocal c hph =>
    exact lockInv_phase_update hs c .done (by constructor <;> simp)
      (by rintro (h | h) <;> rw [hph] at h <;> cases h)

theorem sysReach_inv {cfg : LockCfg} {s : SysState} (h : SysReach cfg s) :
    LockInv s := by
  induction h with
  | refl => exact lockInv_init
  | tail _ hstep ih => exact lockStep_preserves_inv ih hstep

/-- A holder can run `release` to completion (unlock, delete the file,
clear the process flag), and immediately afterwards any other caller's
`acquire` runs to a grant: the released lock leaves no residual state. -/
theorem release_then_acquire (cfg : LockCfg) (s : SysState) (a c : Nat)
    (hga : s.phase a = .granted) (hc : s.phase c = .idle) (hca : c ≠ a)
    (hlc : cfg.pid c = cfg.pid a ∨ s.localHeld (cfg.pid c) = false) :
    ∃ s', Relation.ReflTransGen (LockStep cfg) s s' ∧ s'.phase c = .granted := by
  refine ⟨_, Relation.ReflTransGen.tail (Relation.ReflTransGen.tail
    (Relation.ReflTransGen.tail (Relation.ReflTransGen.tail
      (Relation.ReflTransGen.tail
        (Relation.ReflTransGen.single (LockStep.unlock s a hga))
        (LockStep.removeFile _ a ?_))
      (LockStep.clearLocal _ a ?_))
    (LockStep.localOk _ c ?_ ?_))
    (LockStep.flockOk _ c ?_ ?_))
    (LockStep.writeHolder _ c ?_), ?_⟩
  · simp
  · simp
  · simp [hca, hc]
  · rcases hlc with h | h
    · simp [h]
    · by_cases hp : cfg.pid c = cfg.pid a
      · simp [hp]
      · simp [hp, h]
  · simp
  · simp
  · simp
  · simp

/-! ## A small backtracking matcher

The services' regular expressions are embedded with a backtracking
matcher over character lists.  A matcher returns all ways to consume a
prefix of the remaining input, in the preference order of Python's `re`
backtracking (alternatives left to right, greedy pieces longest first,
lazy pieces shortest first); the character preceding the current
position is carried so `\b` can be tested. -/

/-- Matcher state: previous character (for word boundaries) and the
remaining input. -/
structure MState where
  prev : Option Char
  rest : List Char
  deriving Repr, DecidableEq

/-- A backtracking matcher producing results in preference order. -/
def Mtch (α : Type) : Type := MState → List (α × MState)

instance : Monad Mtch where
  pure a := fun st => [(a, st)]
  bind m f := fun st => (m st).flatMap (fun p => f p.1 p.2)

/-- The failing matcher. -/
def mFail {α : Type} : Mtch α := fun _ => []

/-- Left-biased alternation (Python tries alternatives left to right). -/
def mOr {α : Type} (m₁ m₂ : Mtch α) : Mtch α := fun st => m₁ st ++ m₂ st

/-- First-match choice over a list of alternatives. -/
def mAlt {α : Type} (ms : List (Mtch α)) : Mtch α := ms.foldr mOr mFail

/-- Consume one character satisfying `p`. -/
def mChr (p : Char → Bool) : Mtch Char := fun st =>
  match st.rest with
  | [] => []
  | c :: cs => if p c then [(c, ⟨some c, cs⟩)] else []

/-- Any character except a newline (Python `.` without DOTALL). -/
def mDot : Mtch Char := mChr (fun c => c ≠ '\n')

/-- A literal character, case-sensitively. -/
def mCh (c : Char) : Mtch Char := mChr (fun x => x = c)

/-- A literal string, case-sensitively. -/
def mLit (s : String) : Mtch Unit :=
  s.data.foldr (fun c k => do _ ← mCh c; k) (pure ())

/-- A literal string, case-insensitively (`re.IGNORECASE`, ASCII). -/
def mLitCi (s : String) : Mtch Unit :=
  s.data.foldr (fun c k => do _ ← mChr (fun x => x.toLower = c.toLower); k)
    (pure ())

/-- Python `\w` (ASCII fragment). -/
def wordChar (c : Char) : Bool :=
  asciiAlpha c || ('0' ≤ c && c ≤ '9') || c = '_'

/-- Python `\b`: a word boundary between the previous character and the
next one. -/
def mWordB : Mtch Unit := fun st =>
  let before := match st.prev with | none => false | some c => wordChar c
  let after := match st.rest with | [] => false | c :: _ => wordChar c
  if before ≠ after then [((), st)] else []

/-- Greedy repetition, longest matches first.  Iterations that consume no
input are not repeated (every starred piece in the sources consumes). -/
def mManyG {α : Type} : Nat → Mtch α → Mtch (List α)
  | 0, _ => pure []
  | fuel + 1, m => fun st =>
    (((m st).filter (fun p => p.2.rest.length < st.rest.length)).flatMap
      (fun p => (mManyG fuel m p.2).map (fun q => (p.1 :: q.1, q.2))))
    ++ [([], st)]

/-- Lazy repetition, shortest matches first. -/
def mManyL {α : Type} : Nat → Mtch α → Mtch (List α)
  | 0, _ => pure []
  | fuel + 1, m => fun st =>
    ([], st) ::
    (((m st).filter (fun p => p.2.rest.length < st.rest.length)).flatMap
      (fun p => (mManyL fuel m p.2).map (fun q => (p.1 :: q.1, q.2))))

/-- `x*` (greedy). -/
def mStar {α : Type} (m : Mtch α) : Mtch (List α) := fun st =>
  mManyG (st.rest.length + 1) m st

/-- `x*?` (lazy). -/
def mStarL {α : Type} (m : Mtch α) : Mtch (List α) := fun st =>
  mManyL (st.rest.length + 1) m st

/-- `x+` (greedy). -/
def mPlus {α : Type} (m : Mtch α) : Mtch (List α) := do
  let a ← m
  let as ← mStar m
  pure (a :: as)

/-- `x+?` (lazy). -/
def mPlusL {α : Type} (m : Mtch α) : Mtch (List α) := do
  let a ← m
  let as ← mStarL m
  pure (a :: as)

/-- `x?` (greedy: present first). -/
def mOpt {α : Type} (m : Mtch α) : Mtch (Option α) :=
  mOr (do let a ← m; pure (some a)) (pure none)

/-- `x{min,max}` (greedy). -/
def mRep {α : Type} : Nat → Nat → Mtch α → Mtch (List α)
  | min, 0, _ => if min = 0 then pure [] else mFail
  | min, maxf + 1, m =>
    mOr (do
          let a ← m
          let as ← mRep (min - 1) maxf m
          pure (a :: as))
        (if min = 0 then pure [] else mFail)

/-- Run a sub-matcher and capture the text it consumed (a `( … )` group). -/
def mCapture {α : Type} (m : Mtch α) : Mtch (List Char) := fun st =>
  (m st).map (fun p => (st.rest.take (st.rest.length - p.2.rest.length), p.2))

/-- All match attempts at successive start positions, leftmost position
first; each hit is `(start index, result, state after the match)`. -/
def mRunsFrom {α : Type} (m : Mtch α) :
    Nat → Option Char → List Char → List (Nat × α × MState)
  | _, prev, [] => (m ⟨prev, []⟩).map (fun p => (0, p.1, p.2))
  | i, prev, c :: cs =>
    ((m ⟨prev, c :: cs⟩).map (fun p => (i, p.1, p.2))) ++
      mRunsFrom m (i + 1) (some c) cs

/-- `re.search` on a character list: the leftmost match's result, in
backtracking preference order at that position. -/
def mSearchCL {α : Type} (m : Mtch α) (l : List Char) : Option α :=
  match mRunsFrom m 0 none l with
  | [] => none
  | (_, a, _) :: _ => some a

/-- `re.search` on a string. -/
def mSearch {α : Type} (m : Mtch α) (s : String) : Option α :=
  mSearchCL m s.data

/-- The start index of the leftmost match (`match.start()`). -/
def mSearchIdx {α : Type} (m : Mtch α) (l : List Char) : Option Nat :=
  match mRunsFrom m 0 none l with
  | [] => none
  | (i, _, _) :: _ => some i

/-- All matches' captured results, leftmost first, skipping past each
match (a bounded version of `re.findall` sufficient for the sources,
which only ever use the first element). -/
def mFirst {α : Type} (m : Mtch α) (s : String) : Option α := mSearch m s

/-! ## ViolationSeverityService (src/src/services/violation_severity_service.py)

The severity pattern table of `_get_severity_patterns`, transcribed
pattern by pattern.  Each regex is paired with its source string so
`matched_pattern` in the result is the original pattern text. -/

/-- Sequence a list of unit matchers. -/
def rSeq (ms : List (Mtch Unit)) : Mtch Unit :=
  ms.foldr (fun m k => do _ ← m; k) (pure ())

/-- `.*?` (lazy any-run). -/
def rLz : Mtch Unit := do _ ← mStarL mDot; pure ()

/-- `.?` (greedy optional any). -/
def rOptD : Mtch Unit := do _ ← mOpt mDot; pure ()

/-- An alternation of plain literals `(a|b|…)`. -/
def rAny (ss : List String) : Mtch Unit := mAlt (ss.map mLit)

/-- `a.*?b` for literals. -/
def rThen (a b : String) : Mtch Unit := rSeq [mLit a, rLz, mLit b]

/-- `a.*?(…|…)` for a literal head and literal alternatives. -/
def rThenAny (a : String) (bs : List String) : Mtch Unit :=
  rSeq [mLit a, rLz, rAny bs]

/-- `non.?compliant` (used at levels 9 and 8). -/
def rNonCompliant : Mtch Unit := rSeq [mLit "non", rOptD, mLit "compliant"]

/-- The severity pattern table (levels 10 down to 1, in the order of the
source dict; `sorted(keys, reverse=True)` visits them in this order). -/
def severityPatterns : List (Nat × List (String × Mtch Unit)) :=
  [ (10,
     [ ("(facility|pool|spa).*?(closed|closure|suspended|shutdown)",
        rSeq [rAny ["facility", "pool", "spa"], rLz,
              rAny ["closed", "closure", "suspended", "shutdown"]]),
       ("immediate.*?(closure|suspension|shutdown)",
        rThenAny "immediate" ["closure", "suspension", "shutdown"]),
       ("emergency.*?(closure|shutdown)",
        rThenAny "emergency" ["closure", "shutdown"]),
       ("public.*?health.*?(hazard|emergency)",
        rSeq [mLit "public", rLz, mLit "health", rLz,
              rAny ["hazard", "emergency"]]),
       ("imminent.*?(danger|hazard|threat)",
        rThenAny "imminent" ["danger", "hazard", "threat"]) ]),
    (9,
     [ ("(main|safety).*?drain.*?(missing|broken|damaged|non.?compliant)",
        rSeq [rAny ["main", "safety"], rLz, mLit "drain", rLz,
              mAlt [mLit "missing", mLit "broken", mLit "damaged",
                    rNonCompliant]]),
       ("electrical.*?(hazard|shock|exposed|unsafe)",
        rThenAny "electrical" ["hazard", "shock", "exposed", "unsafe"]),
       ("chemical.*?(leak|spill|hazard|exposure)",
        rThenAny "chemical" ["leak", "spill", "hazard", "exposure"]),
       ("drowning.*?(hazard|risk)", rThenAny "drowning" ["hazard", "risk"]),
       ("entrapment.*?(hazard|risk)",
        rThenAny "entrapment" ["hazard", "risk"]),
       ("suction.*?(entrapment|hazard)",
        rThenAny "suction" ["entrapment", "hazard"]) ]),
    (8,
     [ ("pump.*?(not.*?working|failed|broken|inoperative)",
        rSeq [mLit "pump", rLz,
              mAlt [rThen "not" "working", mLit "failed", mLit "broken",
                    mLit "inoperative"]]),
       ("filtration.*?(not.*?working|failed|broken)",
        rSeq [mLit "filtration", rLz,
              mAlt [rThen "not" "working", mLit "failed", mLit "broken"]]),
       ("circulation.*?(inadequate|failed|poor)",
        rThenAny "circulation" ["inadequate", "failed", "poor"]),
       ("safety.*?(equipment|barrier).*?(missing|broken|inadequate)",
        rSeq [mLit "safety", rLz, rAny ["equipment", "barrier"], rLz,
              rAny ["missing", "broken", "inadequate"]]),
       ("fence.*?(missing|broken|inadequate|non.?compliant)",
        rSeq [mLit "fence", rLz,
              mAlt [mLit "missing", mLit "broken", mLit "inadequate",
                    rNonCompliant]]),
       ("gate.*?(missing|broken|self.?closing|self.?latching)",
        rSeq [mLit "gate", rLz,
              mAlt [mLit "missing", mLit "broken",
                    rSeq [mLit "self", rOptD, mLit "closing"],
                    rSeq [mLit "self", rOptD, mLit "latching"]]]) ]),
    (7,
     [ ("major.*?violation", rThen "major" "violation"),
       ("repeat.*?violation", rThen "repeat" "violation"),
       ("life.*?(guard|safety).*?(missing|absent|unqualified)",
        rSeq [mLit "life", rLz, rAny ["guard", "safety"], rLz,
              rAny ["missing", "absent", "unqualified"]]),
       ("emergency.*?equipment.*?(missing|broken|inadequate)",
        rSeq [mLit "emergency", rLz, mLit "equipment", rLz,
              rAny ["missing", "broken", "inadequate"]]),
       ("first.*?aid.*?(missing|expired|inadequate)",
        rSeq [mLit "first", rLz, mLit "aid", rLz,
              rAny ["missing", "expired", "inadequate"]]),
       ("depth.*?marker.*?(missing|incorrect|illegible)",
        rSeq [mLit "depth", rLz, mLit "marker", rLz,
              rAny ["missing", "incorrect", "illegible"]]) ]),
    (6,
     [ ("filter.*?(dirty|clogged|needs.*?cleaning)",
        rSeq [mLit "filter", rLz,
              mAlt [mLit "dirty", mLit "clogged", rThen "needs" "cleaning"]]),
       ("skimmer.*?(not.*?working|clogged|broken)",
        rSeq [mLit "skimmer", rLz,
              mAlt [rThen "not" "working", mLit "clogged", mLit "broken"]]),
       ("vacuum.*?(not.*?working|broken)",
        rSeq [mLit "vacuum", rLz,
              mAlt [rThen "not" "working", mLit "broken"]]),
       ("equipment.*?(maintenance|repair).*?(needed|required)",
        rSeq [mLit "equipment", rLz, rAny ["maintenance", "repair"], rLz,
              rAny ["needed", "required"]]),
       ("pool.*?equipment.*?(malfunction|problem)",
        rSeq [mLit "pool", rLz, mLit "equipment", rLz,
              rAny ["malfunction", "problem"]]) ]),
    (5,
     [ ("chlorine.*?(low|high|out.*?of.*?range)",
        rSeq [mLit "chlorine", rLz,
              mAlt [mLit "low", mLit "high",
                    rSeq [mLit "out", rLz, mLit "of", rLz, mLit "range"]]]),
       ("ph.*?(low|high|out.*?of.*?range)",
        rSeq [mLit "ph", rLz,
              mAlt [mLit "low", mLit "high",
                    rSeq [mLit "out", rLz, mLit "of", rLz, mLit "range"]]]),
       ("alkalinity.*?(low|high|out.*?of.*?range)",
        rSeq [mLit "alkalinity", rLz,
              mAlt [mLit "low", mLit "high",
                    rSeq [mLit "out", rLz, mLit "of", rLz, mLit "range"]]]),
       ("water.*?quality.*?(poor|unacceptable)",
        rSeq [mLit "water", rLz, mLit "quality", rLz,
              rAny ["poor", "unacceptable"]]),
       ("chemical.*?(imbalance|out.*?of.*?range)",
        rSeq [mLit "chemical", rLz,
              mAlt [mLit "imbalance",
                    rSeq [mLit "out", rLz, mLit "of", rLz, mLit "range"]]]),
       ("disinfectant.*?(low|inadequate|insufficient)",
        rThenAny "disinfectant" ["low", "inadequate", "insufficient"]) ]),
    (4,
     [ ("pool.*?(dirty|needs.*?cleaning|debris)",
        rSeq [mLit "pool", rLz,
              mAlt [mLit "dirty", rThen "needs" "cleaning", mLit "debris"]]),
       ("deck.*?(dirty|needs.*?cleaning|slippery)",
        rSeq [mLit "deck", rLz,
              mAlt [mLit "dirty", rThen "needs" "cleaning",
                    mLit "slippery"]]),
       ("tile.*?(dirty|needs.*?cleaning)",
        rSeq [mLit "tile", rLz,
              mAlt [mLit "dirty", rThen "needs" "cleaning"]]),
       ("surface.*?(rough|needs.*?repair)",
        rSeq [mLit "surface", rLz,
              mAlt [mLit "rough", rThen "needs" "repair"]]),
       ("gutter.*?(dirty|clogged)", rThenAny "gutter" ["dirty", "clogged"]),
       ("algae.*?(present|growth|visible)",
        rThenAny "algae" ["present", "growth", "visible"]) ]),
    (3,
     [ ("log.*?(incomplete|missing|not.*?maintained)",
        rSeq [mLit "log", rLz,
              mAlt [mLit "incomplete", mLit "missing",
                    rThen "not" "maintained"]]),
       ("record.*?(incomplete|missing|not.*?maintained)",
        rSeq [mLit "record", rLz,
              mAlt [mLit "incomplete", mLit "missing",
                    rThen "not" "maintained"]]),
       ("documentation.*?(missing|incomplete|inadequate)",
        rThenAny "documentation" ["missing", "incomplete", "inadequate"]),
       ("permit.*?(expired|missing|not.*?posted)",
        rSeq [mLit "permit", rLz,
              mAlt [mLit "expired", mLit "missing", rThen "not" "posted"]]),
       ("certificate.*?(expired|missing|not.*?posted)",
        rSeq [mLit "certificate", rLz,
              mAlt [mLit "expired", mLit "missing", rThen "not" "posted"]]),
       ("hours.*?(not.*?posted|incorrect)",
        rSeq [mLit "hours", rLz,
              mAlt [rThen "not" "posted", mLit "incorrect"]]) ]),
    (2,
     [ ("light.*?(burned.*?out|not.*?working)",
        rSeq [mLit "light", rLz,
              mAlt [rThen "burned" "out", rThen "not" "working"]]),
       ("sign.*?(missing|faded|needs.*?replacement)",
        rSeq [mLit "sign", rLz,
              mAlt [mLit "missing", mLit "faded",
                    rThen "needs" "replacement"]]),
       ("paint.*?(peeling|needs.*?touch.*?up)",
        rSeq [mLit "paint", rLz,
              mAlt [mLit "peeling",
                    rSeq [mLit "needs", rLz, mLit "touch", rLz,
                          mLit "up"]]]),
       ("minor.*?(repair|maintenance).*?(needed|required)",
        rSeq [mLit "minor", rLz, rAny ["repair", "maintenance"], rLz,
              rAny ["needed", "required"]]),
       ("cosmetic.*?(issue|problem)",
        rThenAny "cosmetic" ["issue", "problem"]) ]),
    (1,
     [ ("administrative.*?(violation|issue)",
        rThenAny "administrative" ["violation", "issue"]),
       ("paperwork.*?(missing|incomplete)",
        rThenAny "paperwork" ["missing", "incomplete"]),
       ("minor.*?(documentation|record).*?(issue|problem)",
        rSeq [mLit "minor", rLz, rAny ["documentation", "record"], rLz,
              rAny ["issue", "problem"]]),
       ("filing.*?(issue|problem|late)",
        rThenAny "filing" ["issue", "problem", "late"]),
       ("notification.*?(issue|late|missing)",
        rThenAny "notification" ["issue", "late", "missing"]) ]) ]

/-- Result of a severity assessment
(`{severity_level, reasoning, matched_pattern, source}`). -/
structure SeverityAssessment where
  severityLevel : Nat
  reasoning : String
  matchedPattern : String
  source : String
  deriving Repr, DecidableEq

/-- `_get_severity_reasoning`. -/
def severityReasoning (level : Nat) : String :=
  match level with
  | 10 => "Immediate facility closure or public health emergency"
  | 9 => "Critical safety hazard requiring immediate attention"
  | 8 => "Major equipment failure affecting safety or operations"
  | 7 => "Serious code violation or repeat offense"
  | 6 => "Equipment maintenance issue affecting functionality"
  | 5 => "Water quality issue requiring correction"
  | 4 => "Maintenance and cleanliness issue"
  | 3 => "Documentation or operational compliance issue"
  | 2 => "Minor equipment or facility issue"
  | 1 => "Administrative or minor documentation issue"
  | l => "Severity level " ++ toString l

/-- `_default_severity`: fixed mid-level fallback tagged `'default'`. -/
def defaultSeverity (reason : String) : SeverityAssessment :=
  { severityLevel := 4
    reasoning := "Default severity assigned: " ++ reason
    matchedPattern := "default"
    source := "default" }

/-- `_assess_by_keywords` keyword buckets. -/
def highKeywords : List String :=
  ["closure", "suspended", "hazard", "emergency", "major", "critical"]

def mediumKeywords : List String :=
  ["repair", "maintenance", "equipment", "safety", "broken"]

def lowKeywords : List String :=
  ["log", "documentation", "sign", "minor", "cosmetic"]

/-- `_assess_by_keywords`. -/
def assessByKeywords (text : String) : SeverityAssessment :=
  if highKeywords.any (fun k => pyContains text k) then
    { severityLevel := 7
      reasoning := "Contains high-priority safety keywords"
      matchedPattern := "keyword_fallback_high"
      source := "keyword_fallback" }
  else if mediumKeywords.any (fun k => pyContains text k) then
    { severityLevel := 5
      reasoning := "Contains medium-priority operational keywords"
      matchedPattern := "keyword_fallback_medium"
      source := "keyword_fallback" }
  else if lowKeywords.any (fun k => pyContains text k) then
    { severityLevel := 2
      reasoning := "Contains low-priority administrative keywords"
      matchedPattern := "keyword_fallback_low"
      source := "keyword_fallback" }
  else
    defaultSeverity "No matching patterns or keywords found"

/-- Scan the pattern table (levels high to low, patterns in order) for
the first pattern matching the text. -/
def findSeverityPattern (table : List (Nat × List (String × Mtch Unit)))
    (text : List Char) : Option (Nat × String) :=
  match table with
  | [] => none
  | (lvl, pats) :: rest =>
    match pats.find? (fun p => (mSearchCL p.2 text).isSome) with
    | some p => some (lvl, p.1)
    | none => findSeverityPattern rest text

/-- `full_text = f"{violation_title} {observations}".lower().strip()`. -/
def severityFullText (violationTitle observations : String) : String :=
  pyStrip (pyLower (violationTitle ++ " " ++ observations))

/-- `ViolationSeverityService.assess_violation_severity`. -/
def assessViolationSeverity (violationTitle observations : String) :
    SeverityAssessment :=
  let fullText := severityFullText violationTitle observations
  if fullText = "" then defaultSeverity "No violation text provided"
  else
    match findSeverityPattern severityPatterns fullText.data with
    | some (lvl, pat) =>
      { severityLevel := lvl
        reasoning := severityReasoning lvl
        matchedPattern := pat
        source := "pattern_matching" }
    | none => assessByKeywords fullText

/-! ## PDFExtractor field probes (src/src/services/pdf_extractor.py)

Each `_find_*` / `_extract_*` helper is embedded with the matcher.
Trailing pattern pieces that are entirely optional and come after the
captured group (unit suffixes such as `\s*(?:ppm|mg/?L)?`) are omitted:
they can neither change whether a match exists nor what group 1 holds. -/

/-- `^` under `re.MULTILINE`: string start or just after a newline. -/
def mLineStart : Mtch Unit := fun st =>
  match st.prev with
  | none => [((), st)]
  | some c => if c = '\n' then [((), st)] else []

/-- `$` under `re.MULTILINE`: string end or just before a newline. -/
def mLineEnd : Mtch Unit := fun st =>
  match st.rest with
  | [] => [((), st)]
  | c :: _ => if c = '\n' then [((), st)] else []

/-- `$` without `re.MULTILINE`: string end or before a final newline. -/
def mStrEnd : Mtch Unit := fun st =>
  match st.rest with
  | [] => [((), st)]
  | [c] => if c = '\n' then [((), st)] else []
  | _ => []

/-- `\s+`. -/
def mWsPlus : Mtch Unit := do _ ← mPlus (mChr pyWs); pure ()

/-- `\s*`. -/
def mWsStar : Mtch Unit := do _ ← mStar (mChr pyWs); pure ()

/-- `key\s+([A-Z0-9]+)` with `re.IGNORECASE`
(`_find_permit_id` / `_find_establishment_id`). -/
def patKeyId (key : String) : Mtch String := do
  _ ← mLitCi key
  _ ← mWsPlus
  let cap ← mCapture (mPlus (mChr (fun c => asciiAlpha c || c.isDigit)))
  pure ⟨cap⟩

def findPermitId (text : String) : Option String :=
  (mSearch (patKeyId "Permit ID") text).map pyStrip

def findEstablishmentId (text : String) : Option String :=
  (mSearch (patKeyId "Establishment ID") text).map pyStrip

/-- `keyA\s+([^\n]+?)\s+keyB` with `re.IGNORECASE` (address pieces). -/
def patBetween (keyA keyB : String) : Mtch String := do
  _ ← mLitCi keyA
  _ ← mWsPlus
  let cap ← mCapture (mPlusL (mChr (fun c => c ≠ '\n')))
  _ ← mWsPlus
  _ ← mLitCi keyB
  pure ⟨cap⟩

/-- `Facility ZIP\s+(\d{5})` with `re.IGNORECASE`. -/
def patZip : Mtch String := do
  _ ← mLitCi "Facility ZIP"
  _ ← mWsPlus
  let cap ← mCapture (mRep 5 5 (mChr Char.isDigit))
  pure ⟨cap⟩

/-- The `raw_address` dictionary of `_extract_address`. -/
structure RawAddress where
  streetAddress : Option String
  city : Option String
  zipCode : Option String
  state : String
  county : String
  deriving Repr, DecidableEq

def extractAddress (text : String) : RawAddress :=
  { streetAddress :=
      (mSearch (patBetween "Facility Address" "Facility City") text).map pyStrip
    city :=
      (mSearch (patBetween "Facility City" "Facility ZIP") text).map pyStrip
    zipCode := (mSearch patZip text).map pyStrip
    state := "CA"
    county := "Sacramento" }

/-- `key\s+([^\n]+)` with `re.IGNORECASE`, raw group 1. -/
def patKeyLine (key : String) : Mtch String := do
  _ ← mLitCi key
  _ ← mWsPlus
  let cap ← mCapture (mPlus (mChr (fun c => c ≠ '\n')))
  pure ⟨cap⟩

def extractPermitHolder (text : String) : Option String :=
  (mSearch (patKeyLine "Permit Holder") text).map pyStrip

/-- `^key\s+(.*)$` with `re.MULTILINE | re.IGNORECASE`
(`_find_value_for_key`). -/
def patValueForKey (key : String) : Mtch String := do
  _ ← mLineStart
  _ ← mLitCi key
  _ ← mWsPlus
  let cap ← mCapture (mStar (mChr (fun c => c ≠ '\n')))
  _ ← mLineEnd
  pure ⟨cap⟩

def findValueForKey (text key : String) : Option String :=
  (mSearch (patValueForKey key) text).map pyStrip

def extractPhone (text : String) : Option String :=
  findValueForKey text "Phone Number"

def extractInspectorPhone (text : String) : Option String :=
  findValueForKey text "Insp Phone"

/-- `key\s+([A-Z]+)` with `re.IGNORECASE`. -/
def patKeyAlpha (key : String) : Mtch String := do
  _ ← mLitCi key
  _ ← mWsPlus
  let cap ← mCapture (mPlus (mChr asciiAlpha))
  pure ⟨cap⟩

def extractInspectionType (text : String) : Option String :=
  match mSearch (patKeyAlpha "Type") text with
  | some v => some (pyStrip v)
  | none => (mSearch (patKeyAlpha "Purpose") text).map pyStrip

/-- `(EMD\d+\+DA\d+\+\d{2}-\d{2}-\d{4})`, case-sensitive. -/
def patBarcode : Mtch String := do
  let c ← mCapture (do
    _ ← mLit "EMD"
    _ ← mPlus (mChr Char.isDigit)
    _ ← mCh '+'
    _ ← mLit "DA"
    _ ← mPlus (mChr Char.isDigit)
    _ ← mCh '+'
    _ ← mRep 2 2 (mChr Char.isDigit)
    _ ← mCh '-'
    _ ← mRep 2 2 (mChr Char.isDigit)
    _ ← mCh '-'
    _ ← mRep 4 4 (mChr Char.isDigit)
    pure ())
  pure ⟨c⟩

def extractBarcodeData (text : String) : Option String :=
  mSearch patBarcode text

def extractReinspectionRequired (text : String) : Bool :=
  pyContains text "Reinspection Required"

def extractClosureSuspensionRequired (text : String) : Bool :=
  pyContains text "Suspension of Health Permit"

def extractReportRecipient (text : String) : Option String :=
  (mSearch (patKeyLine "Reviewed") text).map pyStrip

/-- `_extract_inspector_name`: the line after the first line that
contains "Inspector" (if such a next line exists). -/
def inspectorScan : List String → Option String
  | [] => none
  | [_] => none
  | l :: next :: rest =>
    if pyContains l "Inspector" then some (pyStrip next)
    else inspectorScan (next :: rest)

def extractInspectorName (text : String) : Option String :=
  inspectorScan (pySplitLines text)

/-- `Prog\s+Identifier\s+([A-Z\s]+?)\s*(?:Pag|$)` with `re.IGNORECASE`. -/
def patProgId1 : Mtch String := do
  _ ← mLitCi "Prog"
  _ ← mWsPlus
  _ ← mLitCi "Identifier"
  _ ← mWsPlus
  let cap ← mCapture (mPlusL (mChr (fun c => asciiAlpha c || pyWs c)))
  _ ← mWsStar
  _ ← mOr (mLitCi "Pag") mStrEnd
  pure ⟨cap⟩

/-- `Program\s+(?:Identifier|ID)\s*[:\-]?\s*([A-Z\s]+?)\s*(?:Pag|$)`. -/
def patProgId2 : Mtch String := do
  _ ← mLitCi "Program"
  _ ← mWsPlus
  _ ← mOr (mLitCi "Identifier") (mLitCi "ID")
  _ ← mWsStar
  _ ← mOpt (mChr (fun c => c = ':' || c = '-'))
  _ ← mWsStar
  let cap ← mCapture (mPlusL (mChr (fun c => asciiAlpha c || pyWs c)))
  _ ← mWsStar
  _ ← mOr (mLitCi "Pag") mStrEnd
  pure ⟨cap⟩

def findProgramIdentifier (text : String) : Option String :=
  match mSearch patProgId1 text with
  | some v => some (pyUpper (pyStrip v))
  | none => (mSearch patProgId2 text).map (fun v => pyUpper (pyStrip v))

/-! ### Inspection date -/

/-- A calendar date as produced by the external `dateutil` parser. -/
structure SDate where
  year : Nat
  month : Nat
  day : Nat
  deriving Repr, DecidableEq

/-- Zero-padded decimal rendering. -/
def padNum (width n : Nat) : String :=
  let s := toString n
  ⟨List.replicate (width - s.length) '0'⟩ ++ s

/-- `date_obj.strftime('%Y-%m-%d')`. -/
def isoFormat (d : SDate) : String :=
  padNum 4 d.year ++ "-" ++ padNum 2 d.month ++ "-" ++ padNum 2 d.day

/-- `_normalize_date_for_comparison`, with the permissive `dateutil`
parser supplied as a function (it is an external library): empty/absent
input and parse failures give `None`, otherwise ISO `YYYY-MM-DD`. -/
def normalizeDateForComparison (parse : String → Option SDate)
    (dateStr : Option String) : Option String :=
  match dateStr with
  | none => none
  | some s => if s = "" then none else (parse s).map isoFormat

/-- `(\d{1,2}/\d{1,2}/\d{4})`. -/
def patSlashDate : Mtch String := do
  let c ← mCapture (do
    _ ← mRep 1 2 (mChr Char.isDigit)
    _ ← mCh '/'
    _ ← mRep 1 2 (mChr Char.isDigit)
    _ ← mCh '/'
    _ ← mRep 4 4 (mChr Char.isDigit)
    pure ())
  pure ⟨c⟩

/-- `Date\s+Entered\s+(\d{1,2}/\d{1,2}/\d{4})` with `re.IGNORECASE`. -/
def patDateEntered : Mtch String := do
  _ ← mLitCi "Date"
  _ ← mWsPlus
  _ ← mLitCi "Entered"
  _ ← mWsPlus
  patSlashDate

/-- `(?:Inspection|Date)[:\s]*(\d{1,2}/\d{1,2}/\d{4})`, case-sensitive. -/
def patInspDate : Mtch String := do
  _ ← mOr (mLit "Inspection") (mLit "Date")
  _ ← mStar (mChr (fun c => c = ':' || pyWs c))
  patSlashDate

/-- `(\d{4}-\d{2}-\d{2})`. -/
def patIsoDate : Mtch String := do
  let c ← mCapture (do
    _ ← mRep 4 4 (mChr Char.isDigit)
    _ ← mCh '-'
    _ ← mRep 2 2 (mChr Char.isDigit)
    _ ← mCh '-'
    _ ← mRep 2 2 (mChr Char.isDigit)
    pure ())
  pure ⟨c⟩

/-- `_find_date`: "Date Entered" anchor first, then the fallback
patterns in order; every hit is normalised before being returned. -/
def findDate (parse : String → Option SDate) (text : String) :
    Option String :=
  match mSearch patDateEntered text with
  | some d => normalizeDateForComparison parse (some d)
  | none =>
    match mSearch patInspDate text with
    | some d => normalizeDateForComparison parse (some d)
    | none =>
      match mSearch patSlashDate text with
      | some d => normalizeDateForComparison parse (some d)
      | none =>
        match mSearch patIsoDate text with
        | some d => normalizeDateForComparison parse (some d)
        | none => none

/-! ### Violations (`_extract_violations`) -/

/-- One extracted violation record. -/
structure Violation where
  violationCode : String
  violationTitle : String
  observations : String
  codeDescription : String
  isMajorViolation : Bool
  correctiveAction : Option String
  severityLevel : Nat
  correctionDeadlineDays : Option Nat
  deriving Repr, DecidableEq

/-- `re.match(r"^(\d+[a-z]?)\. (.+)$", line)` on an already stripped
line: code group and title group, or `none`. -/
def matchViolAnchor (line : String) : Option (String × String) :=
  let l := line.data
  let ds := l.takeWhile Char.isDigit
  if ds.isEmpty then none
  else
    let r1 := l.drop ds.length
    let (code, r2) : List Char × List Char :=
      match r1 with
      | c :: cs => if 'a' ≤ c && c ≤ 'z' then (ds ++ [c], cs) else (ds, r1)
      | [] => (ds, [])
    match r2 with
    | '.' :: ' ' :: rest => if rest.isEmpty then none else some (⟨code⟩, ⟨rest⟩)
    | _ => none

/-- `re.match(r"^\d+[a-z]?\.", line)` as a boolean (boundary test). -/
def isViolBoundary (line : String) : Bool :=
  let l := line.data
  let ds := l.takeWhile Char.isDigit
  if ds.isEmpty then false
  else
    match l.drop ds.length with
    | [] => false
    | c :: rest =>
      if c = '.' then true
      else
        ('a' ≤ c && c ≤ 'z') &&
          (match rest with | '.' :: _ => true | _ => false)

/-- Inner observations loop: append stripped lines until a
"Code Description:" line or the next violation anchor. -/
def obsInner : List String → String → String
  | [], acc => acc
  | l :: ls, acc =>
    if pyContains l "Code Description:" || isViolBoundary (pyStrip l) then acc
    else obsInner ls (acc ++ " " ++ pyStrip l)

/-- Outer observations loop: find the "Observations:" line before the
next violation anchor and collect its block. -/
def obsScan : List String → String
  | [] => ""
  | l :: ls =>
    if isViolBoundary (pyStrip l) then ""
    else if pyContains l "Observations:" then
      obsInner ls (pyStrip (pyAfterFirst l "Observations:"))
    else obsScan ls

/-- `re.sub(r'\s*Pag\s+\d+.*$', '', line)`: truncate at the leftmost
page artifact. -/
def patPagArtifact : Mtch Unit := do
  _ ← mWsStar
  _ ← mLit "Pag"
  _ ← mWsPlus
  _ ← mPlus (mChr Char.isDigit)
  pure ()

def cleanPag (s : String) : String :=
  match mSearchIdx patPagArtifact s.data with
  | none => s
  | some i => ⟨s.data.take i⟩

/-- The code-description boundary labels of `_extract_violations`. -/
def descBoundary (next : String) : Bool :=
  isViolBoundary next ||
  prefixCL "Pag ".data next.data ||
  prefixCL "Date Entered".data next.data ||
  prefixCL "Recreational Health".data next.data ||
  prefixCL "Permit Holder".data next.data ||
  prefixCL "Facility".data next.data ||
  prefixCL "Phone Number".data next.data ||
  prefixCL "RP Gauge".data next.data ||
  prefixCL "Pool Equipment".data next.data ||
  next = ""

/-- Inner code-description loop with the strict boundary denylist. -/
def descInner : List String → String → String
  | [], acc => acc
  | l :: ls, acc =>
    let next := pyStrip l
    if descBoundary next then acc
    else descInner ls (acc ++ " " ++ cleanPag next)

/-- Outer code-description loop: scan for a "Code Description:" line
(the source scans to the end of the document, not just to the next
anchor), then collect until a boundary. -/
def descScan : List String → String
  | [] => ""
  | l :: ls =>
    if pyContains l "Code Description:" then
      descInner ls (pyStrip (pyAfterFirst l "Code Description:"))
    else descScan ls

/-- Decimal digits to a number (`int(...)` on a digit run). -/
def natOfDigits (s : String) : Nat :=
  s.data.foldl (fun n c => n * 10 + (c.toNat - '0'.toNat)) 0

/-- `verb(?:ed?)? (?:in|within) (\d+) days?` with `re.IGNORECASE`. -/
def patDeadline (verb : String) : Mtch String := do
  _ ← mLitCi verb
  _ ← mOpt (do
        _ ← mChr (fun c => c.toLower = 'e')
        _ ← mOpt (mChr (fun c => c.toLower = 'd'))
        pure ())
  _ ← mCh ' '
  _ ← mOr (mLitCi "in") (mLitCi "within")
  _ ← mCh ' '
  let c ← mCapture (mPlus (mChr Char.isDigit))
  _ ← mCh ' '
  _ ← mLitCi "day"
  _ ← mOpt (mChr (fun c => c.toLower = 's'))
  pure ⟨c⟩

/-- `within (\d+) days` with `re.IGNORECASE`. -/
def patWithinDays : Mtch String := do
  _ ← mLitCi "within"
  _ ← mCh ' '
  let c ← mCapture (mPlus (mChr Char.isDigit))
  _ ← mCh ' '
  _ ← mLitCi "days"
  pure ⟨c⟩

/-- `_extract_deadline_days`. -/
def extractDeadlineDays (observations : String) : Option Nat :=
  if observations = "" then none
  else
    match mSearch (patDeadline "correct") observations with
    | some d => some (natOfDigits d)
    | none =>
      match mSearch (patDeadline "fix") observations with
      | some d => some (natOfDigits d)
      | none =>
        match mSearch (patDeadline "repair") observations with
        | some d => some (natOfDigits d)
        | none => (mSearch patWithinDays observations).map natOfDigits

/-- The token whose presence in the upper-cased observations flags a
major violation. -/
def majorToken : String := "MAJOR VIOLATION"

/-- Build one violation record from an anchor match and the lines that
follow it. -/
def buildViolation (code title : String) (following : List String) :
    Violation :=
  let obsRaw := obsScan following
  let desc := descScan following
  let isMajor := containsCL (upperCL obsRaw.data) majorToken.data
  { violationCode := code
    violationTitle := pyStrip title
    observations := pyStrip obsRaw
    codeDescription := pyStrip desc
    isMajorViolation := isMajor
    correctiveAction := none
    severityLevel := if isMajor then 3 else 1
    correctionDeadlineDays := extractDeadlineDays (pyStrip obsRaw) }

/-- The enumeration loop of `_extract_violations`. -/
def violLoop : List String → List Violation
  | [] => []
  | line :: rest =>
    match matchViolAnchor (pyStrip line) with
    | none => violLoop rest
    | some (code, title) => buildViolation code title rest :: violLoop rest

/-- `PDFExtractor._extract_violations`. -/
def extractViolations (text : String) : List Violation :=
  violLoop (pySplitLines text)

/-! ### Water chemistry (`_extract_water_chemistry`) -/

/-- The water-chemistry readings; captured numerals are kept as the
matched strings (their float/int conversion on a captured numeral never
fails and the claims only concern presence). -/
structure WaterChemistry where
  freeChlorine : Option String
  totalChlorine : Option String
  combinedChlorine : Option String
  ph : Option String
  alkalinityPpm : Option String
  cyanuricAcidPpm : Option String
  calciumHardness : Option String
  waterTemp : Option String
  deriving Repr, DecidableEq

/-- `\b` + key alternation + `\s*[:=]?\s*` + captured numeral
(decimal part allowed when `dec`). -/
def patChem (keyAlt : Mtch Unit) (dec : Bool) : Mtch String := do
  _ ← mWordB
  _ ← keyAlt
  _ ← mWsStar
  _ ← mOpt (mChr (fun c => c = ':' || c = '='))
  _ ← mWsStar
  let c ← mCapture (do
    _ ← mPlus (mChr Char.isDigit)
    _ ← (if dec then
          (do
            _ ← mOpt (do
              _ ← mCh '.'
              _ ← mPlus (mChr Char.isDigit)
              pure ())
            pure ())
        else pure ())
    pure ())
  pure ⟨c⟩

/-- `(?:free\s*chlorine|fc)` and friends. -/
def keyTwoWords (a b : String) : Mtch Unit := do
  _ ← mLitCi a
  _ ← mWsStar
  _ ← mLitCi b
  pure ()

def extractWaterChemistry (text : String) : WaterChemistry :=
  { freeChlorine :=
      mSearch (patChem (mOr (keyTwoWords "free" "chlorine") (mLitCi "fc")) true) text
    totalChlorine :=
      mSearch (patChem (mOr (keyTwoWords "total" "chlorine") (mLitCi "tc")) true) text
    combinedChlorine :=
      mSearch (patChem (mOr (keyTwoWords "combined" "chlorine") (mLitCi "cc")) true) text
    ph :=
      mSearch (patChem (do _ ← mLitCi "ph"; mWordB) true) text
    alkalinityPpm :=
      mSearch (patChem (mAlt [keyTwoWords "total" "alkalinity",
        mLitCi "alkalinity", mLitCi "ta"]) false) text
    cyanuricAcidPpm :=
      mSearch (patChem (mAlt [keyTwoWords "cyanuric" "acid",
        mLitCi "stabilizer", mLitCi "cya"]) false) text
    calciumHardness :=
      mSearch (patChem (mAlt [keyTwoWords "calcium" "hardness",
        mLitCi "hardness", mLitCi "ch"]) false) text
    waterTemp :=
      mSearch (patChem (mOr (mLitCi "temp") (mLitCi "temperature")) true) text }

/-! ### Report notes and facility type -/

/-- Collection phase of `_extract_report_notes` (after the "Notes"
line): a later "Notes" line is skipped by the first `if`, the stop
labels break, blank lines are dropped. -/
def notesCollect : List String → List String
  | [] => []
  | l :: ls =>
    let s := pyStrip l
    if s = "Notes" then notesCollect ls
    else if s = "Accepted By" || s = "Reviewed" || s = "Beginning in" ||
        prefixCL "County of".data l.data then []
    else if s ≠ "" then s :: notesCollect ls
    else notesCollect ls

def notesFind : List String → List String
  | [] => []
  | l :: ls => if pyStrip l = "Notes" then notesCollect ls else notesFind ls

def extractReportNotes (text : String) : Option String :=
  let noteLines := notesFind (pySplitLines text)
  if noteLines.isEmpty then none else some (String.intercalate "\n" noteLines)

/-- `_determine_facility_type`. -/
def determineFacilityType (text : String) (programIdentifier : Option String) :
    String :=
  let facilityName := (mSearch (patKeyLine "Facility Name") text).getD ""
  if ["HOT TUB", "JACUZZI", "WHIRLPOOL", "SPA "].any
      (fun w => containsCL (upperCL facilityName.data) w.data) then "SPA"
  else if (match programIdentifier with
    | some p => p ≠ "" && pyContains p "SPA" && !pyContains p "SPRAY"
    | none => false) then "SPA"
  else if pyContains (pyLower text) "jet pump" ||
      pyContains (pyLower text) "spa jet" then "SPA"
  else "POOL"

/-! ### Equipment (`_extract_equipment_comprehensive`)

String utilities used by the equipment extractor's helpers. -/

/-- `re.sub(r"\s+", " ", s)`: collapse whitespace runs to one space. -/
def collapseWsCL (l : List Char) : List Char :=
  l.foldr
    (fun c acc =>
      if pyWs c then
        match acc with
        | ' ' :: _ => acc
        | _ => ' ' :: acc
      else c :: acc) []

/-- `str.strip(chars)`: drop the given characters from both ends. -/
def stripCharsCL (chars : List Char) (l : List Char) : List Char :=
  ((l.dropWhile (chars.contains ·)).reverse.dropWhile (chars.contains ·)).reverse

/-- `clean(s)` from the equipment extractor:
`re.sub(r"\s+", " ", s).strip(" ,;:")`. -/
def cleanEquip (s : String) : String :=
  ⟨stripCharsCL [' ', ',', ';', ':'] (collapseWsCL s.data)⟩

/-- `str.replace(pat, rep)` (all occurrences, case-sensitive). -/
def replaceAllCL (pat rep : List Char) : List Char → List Char
  | [] => []
  | c :: cs =>
    if h : pat ≠ [] ∧ prefixCL pat (c :: cs) then
      rep ++ replaceAllCL pat rep ((c :: cs).drop pat.length)
    else c :: replaceAllCL pat rep cs
termination_by l => l.length
decreasing_by
  · simp only [List.length_drop, List.length_cons]
    have : 1 ≤ pat.length := by
      cases hp : pat with
      | nil => exact absurd hp h.1
      | cons a as => simp
    omega
  · simp

def pyReplace (s pat rep : String) : String :=
  ⟨replaceAllCL pat.data rep.data s.data⟩

/-- `str.capitalize()`: first character upper, the rest lower (ASCII). -/
def pyCapitalize (s : String) : String :=
  match s.data with
  | [] => ""
  | c :: cs => ⟨c.toUpper :: lowerCL cs⟩

/-- Split on single whitespace characters, keeping empty segments. -/
def splitAnyWsCL : List Char → List (List Char)
  | [] => [[]]
  | c :: cs =>
    let rest := splitAnyWsCL cs
    if pyWs c then [] :: rest
    else
      match rest with
      | [] => [[c]]
      | seg :: segs => (c :: seg) :: segs

/-- Python `str.split()` (no argument): words between whitespace runs. -/
def pySplitWs (s : String) : List String :=
  ((splitAnyWsCL s.data).filter (· ≠ [])).map (fun l => ⟨l⟩)

/-- `norm_make`: canonicalise manufacturer spelling variants, then
capitalise each word unless the result is `PACFAB`. -/
def normMake (s : String) : String :=
  let s := pyStrip s
  let s := pyReplace s "Sta Rite" "Sta-Rite"
  let s := pyReplace s "Sta-rite" "Sta-Rite"
  let s := pyReplace s "starite" "Sta-Rite"
  let s := pyReplace s "Starite" "Sta-Rite"
  let s := pyReplace s "Sta-Rite" "StaRite"
  let s := pyReplace s "rolachem" "RolaChem"
  let s := pyReplace s "Rolachem" "RolaChem"
  let s := pyReplace s "aquastar" "AquaStar"
  let s := pyReplace s "Aquastar" "AquaStar"
  let s := pyReplace s "pacfab" "PACFAB"
  let s := pyReplace s "Pacfab" "PACFAB"
  if s = "PACFAB" then s
  else String.intercalate " " ((pySplitWs s).map pyCapitalize)

/-- `norm_model` is `clean`. -/
def normModel (s : String) : String := cleanEquip s

/-- Anchored match (`re.match`): run the matcher at position 0 with no
preceding character. -/
def mMatchCL {α : Type} (m : Mtch α) (l : List Char) : Option α :=
  match m ⟨none, l⟩ with
  | [] => none
  | p :: _ => some p.1

/-- `normalize_date` of the equipment extractor: the class has no
`_normalize_date` attribute, so the `try` always falls through to the
`mm/dd/yy(yy)` fallback. -/
def normalizeEquipDate (s : String) : Option String :=
  let pat : Mtch (String × String × String) := do
    let a ← mCapture (mRep 1 2 (mChr Char.isDigit))
    _ ← mCh '/'
    let b ← mCapture (mRep 1 2 (mChr Char.isDigit))
    _ ← mCh '/'
    let c ← mCapture (mRep 2 4 (mChr Char.isDigit))
    pure (⟨a⟩, ⟨b⟩, ⟨c⟩)
  match mMatchCL pat s.data with
  | none => none
  | some (mm, dd, yy) =>
    let m := natOfDigits mm
    let d := natOfDigits dd
    let y := natOfDigits yy
    let y := if y < 100 then y + 2000 else y
    some (padNum 4 y ++ "-" ++ padNum 2 m ++ "-" ++ padNum 2 d)

/-- Leftmost match with its result and end state, starting with the
given preceding character (`pattern.search(s, pos)`). -/
def mSearchStCL {α : Type} (m : Mtch α) (prev : Option Char)
    (l : List Char) : Option (α × MState) :=
  match mRunsFrom m 0 prev l with
  | [] => none
  | (_, a, st) :: _ => some (a, st)

/-! The gazetteer patterns. -/

/-- One manufacturer alternative: spaces in the name become `[ -]?`
(`re.sub(r"\s+", r"[ -]?", re.escape(m))`). -/
def makeAltPat (name : String) : Mtch Unit :=
  match pySplitWs name with
  | [] => pure ()
  | w :: ws =>
    ws.foldl
      (fun acc w' => do
        _ ← acc
        _ ← mOpt (mChr (fun c => c = ' ' || c = '-'))
        _ ← mLitCi w'
        pure ())
      (do _ ← mLitCi w; pure ())

/-- `MAKE_RE`: the makes sorted longest first (`sorted(set(MAKES),
key=len, reverse=True)`; ties listed in `MAKES` order — alternatives of
equal length match identical spans, so tie order cannot change the
captured text), wrapped in `\b( … )\b`, capturing the matched name. -/
def makesSorted : List String :=
  ["Crystal Water", "AquaStar", "Waterway", "Sta-Rite", "Sta Rite",
   "RolaChem", "Pentair", "Hayward", "StaRite", "PACFAB", "Jandy"]

def patMakeCap : Mtch String := do
  _ ← mWordB
  let c ← mCapture (mAlt (makesSorted.map makeAltPat))
  _ ← mWordB
  pure ⟨c⟩

/-- The `MODEL_FAMILIES` alternatives, in source order. -/
def modelFamilyPats : List (Mtch Unit) :=
  [ (do _ ← mLitCi "CCP"; _ ← mRep 2 3 (mChr Char.isDigit); pure ()),
    (do _ ← mLitCi "TR"; _ ← mOpt (mCh '-')
        _ ← mRep 2 3 (mChr Char.isDigit); pure ()),
    (do _ ← mLitCi "S8D"; _ ← mRep 3 3 (mChr Char.isDigit); pure ()),
    (do _ ← mLit "570-"; _ ← mRep 4 5 (mChr Char.isDigit); pure ()),
    (do _ ← mLitCi "FSH-"; _ ← mRep 3 3 (mChr Char.isDigit); pure ()),
    (do _ ← mLitCi "VSF"; mWordB),
    (do _ ← mLitCi "RC"; _ ← mRep 3 3 (mChr Char.isDigit)
        _ ← mLitCi "SC"; mWordB),
    (do _ ← mLitCi "HC"; _ ← mRep 4 5 (mChr Char.isDigit); mWordB),
    (do _ ← mLitCi "PE5E-125L"; mWordB),
    (do _ ← mLitCi "10AVR"; mWordB),
    (do _ ← mLitCi "10AV"; mWordB),
    (do _ ← mLitCi "FNS"; _ ← mOpt (mChr (fun c => c.toLower = 'p'))
        _ ← mStar (mChr Char.isDigit); mWordB),
    (do _ ← mLitCi "WFE-"; _ ← mPlus (mChr Char.isDigit); mWordB),
    (do _ ← mLitCi "INTELLIFLO"; _ ← mOpt (mCh '3'); mWordB),
    (do _ ← mLitCi "SUPERFLO"; mWordB),
    (do _ ← mLitCi "DE6020"; mWordB),
    (do _ ← mLitCi "SYSTEM-3"; mWordB),
    (do _ ← mLitCi "P6E6E"; mWordB),
    (do _ ← mLitCi "VS"; _ ← mOpt (mCh '-'); _ ← mLitCi "SVRS"; mWordB),
    (do _ ← mLitCi "WFK-"; _ ← mPlus (mChr Char.isDigit); mWordB),
    (do _ ← mLitCi "TRITON"; mWordB),
    (do _ ← mLitCi "WHISPERFLO"; mWordB),
    (do _ ← mLitCi "S8M"; _ ← mRep 3 3 (mChr Char.isDigit); mWordB),
    (do _ ← mLitCi "CC520"; mWordB),
    (do _ ← mLitCi "TR140C"; mWordB),
    (do _ ← mLitCi "S310"; mWordB),
    (do _ ← mLitCi "PE5F-126L"; mWordB),
    (do _ ← mLitCi "VS"; _ ← mOpt (mChr (fun c => c.toLower = 's'))
        _ ← mLitCi "HP270DV2A"; _ ← mOpt (mChr (fun c => c.toLower = 's'))
        mWordB) ]

/-- `MODEL_RE = \b( MODEL_FAMILIES joined )\b`, capturing group 1. -/
def patModelCap : Mtch String := do
  _ ← mWordB
  let c ← mCapture (mAlt modelFamilyPats)
  _ ← mWordB
  pure ⟨c⟩

/-- `PUMP_OR_FILTER_FAMS`. -/
def patPumpOrFilterFams : Mtch Unit := do
  _ ← mWordB
  _ ← mAlt
    [ (do _ ← mLitCi "INTELLIFLO"; _ ← mOpt (mCh '3'); pure ()),
      mLitCi "SUPERFLO",
      (do _ ← mLitCi "WFE-"; _ ← mPlus (mChr Char.isDigit); pure ()),
      (do _ ← mLitCi "WFK-"; _ ← mPlus (mChr Char.isDigit); pure ()),
      (do _ ← mLitCi "CCP"; _ ← mRep 2 3 (mChr Char.isDigit); pure ()),
      (do _ ← mLitCi "TR"; _ ← mOpt (mCh '-')
          _ ← mRep 2 3 (mChr Char.isDigit); pure ()),
      mLitCi "FNS" ]
  mWordB

/-- `CAP_RE = \b(\d{1,3}(?:,\d{3})*)\s*gal\b` (group 1). -/
def patCapGal : Mtch String := do
  _ ← mWordB
  let c ← mCapture (do
    _ ← mRep 1 3 (mChr Char.isDigit)
    _ ← mStar (do _ ← mCh ','; _ ← mRep 3 3 (mChr Char.isDigit); pure ())
    pure ())
  _ ← mWsStar
  _ ← mLitCi "gal"
  mWordB
  pure ⟨c⟩

/-- `FLOW_RE = \b(\d{2,4})\s*gpm\b` (group 1). -/
def patFlowGpm : Mtch String := do
  _ ← mWordB
  let c ← mCapture (mRep 2 4 (mChr Char.isDigit))
  _ ← mWsStar
  _ ← mLitCi "gpm"
  mWordB
  pure ⟨c⟩

/-- `\b(\d{2,4})\s*(?:gpm|GPM)\b` (no IGNORECASE; used for
`filter_1_capacity_gpm`). -/
def patFilterCapGpm : Mtch String := do
  _ ← mWordB
  let c ← mCapture (mRep 2 4 (mChr Char.isDigit))
  _ ← mWsStar
  _ ← mOr (mLit "gpm") (mLit "GPM")
  mWordB
  pure ⟨c⟩

/-- `HP_RE = \b(\d+(?:\.\d+)?)\s*hp\b` (group 1). -/
def patHp : Mtch String := do
  _ ← mWordB
  let c ← mCapture (do
    _ ← mPlus (mChr Char.isDigit)
    _ ← mOpt (do _ ← mCh '.'; _ ← mPlus (mChr Char.isDigit); pure ())
    pure ())
  _ ← mWsStar
  _ ← mLitCi "hp"
  mWordB
  pure ⟨c⟩

/-- `DATE_RE = \b(\d{1,2}/\d{1,2}/\d{2,4})\b` (group 1). -/
def patEquipDate : Mtch String := do
  _ ← mWordB
  let c ← mCapture (do
    _ ← mRep 1 2 (mChr Char.isDigit)
    _ ← mCh '/'
    _ ← mRep 1 2 (mChr Char.isDigit)
    _ ← mCh '/'
    _ ← mRep 2 4 (mChr Char.isDigit)
    pure ())
  mWordB
  pure ⟨c⟩

/-- `COUNT_RE = \(x?\s*(\d+)\)` (group 1). -/
def patCount : Mtch String := do
  _ ← mCh '('
  _ ← mOpt (mChr (fun c => c.toLower = 'x'))
  _ ← mWsStar
  let c ← mCapture (mPlus (mChr Char.isDigit))
  _ ← mCh ')'
  pure ⟨c⟩

/-- `SUPP_RE = \bSUPPLEMENTAL(?:\s+ONLY)?\b`. -/
def patSupp : Mtch Unit := do
  _ ← mWordB
  _ ← mLitCi "SUPPLEMENTAL"
  _ ← mOpt (do _ ← mWsPlus; _ ← mLitCi "ONLY"; pure ())
  mWordB

/-- A number with an optional decimal part. -/
def mNumber : Mtch Unit := do
  _ ← mPlus (mChr Char.isDigit)
  _ ← mOpt (do _ ← mCh '.'; _ ← mPlus (mChr Char.isDigit); pure ())
  pure ()

/-- `GPD_RE = \b\d+(?:\.\d+)?\s*GPD\b`. -/
def patGpd : Mtch Unit := do
  _ ← mWordB
  _ ← mNumber
  _ ← mWsStar
  _ ← mLitCi "GPD"
  mWordB

/-- `(?:l[b]?\s*s?|lb?s?)`: pounds-unit variants (incl. OCR forms). -/
def mLbsUnit : Mtch Unit :=
  mOr
    (do _ ← mChr (fun c => c.toLower = 'l')
        _ ← mOpt (mChr (fun c => c.toLower = 'b'))
        _ ← mWsStar
        _ ← mOpt (mChr (fun c => c.toLower = 's'))
        pure ())
    (do _ ← mChr (fun c => c.toLower = 'l')
        _ ← mOpt (mChr (fun c => c.toLower = 'b'))
        _ ← mOpt (mChr (fun c => c.toLower = 's'))
        pure ())

/-- `(?:/|\bper\b)`. -/
def mPerOrSlash : Mtch Unit :=
  mOr (do _ ← mCh '/'; pure ())
      (do _ ← mWordB; _ ← mLitCi "per"; mWordB)

/-- `FEED_LBS_RE = \b\d+(?:\.\d+)?\s*(?:l[b]?\s*s?|lb?s?)\s*(?:/|\bper\b)\s*day\b`. -/
def patFeedLbs : Mtch Unit := do
  _ ← mWordB
  _ ← mNumber
  _ ← mWsStar
  _ ← mLbsUnit
  _ ← mWsStar
  _ ← mPerOrSlash
  _ ← mWsStar
  _ ← mLitCi "day"
  mWordB

/-- The sanitizer details probe
`(RC\d{3}SC\b|\d+(?:\.\d+)?\s*(?:GPD|l[b]?\s*s?|lb?s?)\s*(?:/|\bper\b)\s*day\b)` (group 1). -/
def patSanDetails : Mtch String := do
  let c ← mCapture (mOr
    (do _ ← mLitCi "RC"; _ ← mRep 3 3 (mChr Char.isDigit)
        _ ← mLitCi "SC"; mWordB)
    (do _ ← mNumber
        _ ← mWsStar
        _ ← mAlt [mLitCi "GPD", mLbsUnit]
        _ ← mWsStar
        _ ← mPerOrSlash
        _ ← mWsStar
        _ ← mLitCi "day"
        mWordB))
  pure ⟨c⟩

/-- `\b(word|…)\b` keyword probes for the sanitizer type. -/
def patWordsB (alts : List (Mtch Unit)) : Mtch Unit := do
  _ ← mWordB
  _ ← mAlt alts
  mWordB

/-- `\b(10AVR?|AquaStar\s*10AVR?)\b` for the main-drain model (group 1). -/
def patMdModel : Mtch String := do
  _ ← mWordB
  let c ← mCapture (mOr
    (do _ ← mLitCi "10AV"; _ ← mOpt (mChr (fun c => c.toLower = 'r')); pure ())
    (do _ ← mLitCi "AquaStar"; _ ← mWsStar
        _ ← mLitCi "10AV"; _ ← mOpt (mChr (fun c => c.toLower = 'r')); pure ()))
  mWordB
  pure ⟨c⟩

/-! The `section` helper and the equipment extractor body. -/

/-- `\b{label}\b[^:\n]*[:\-]?` reduced to its mandatory part: the
optional tail pieces cannot affect whether or where a match starts. -/
def labelPat (label : String) : Mtch Unit := do
  _ ← mWordB
  _ ← mLitCi label
  mWordB

def sectionLabels : List String :=
  ["FILTER", "PUMP", "SAN", "MD", "MAIN DRAIN", "EQ", "EQU", "EQUALIZER"]

/-- The end-of-section scan: labels are tried in list order and the
first one found at a positive offset wins (exactly the source's loop,
which does not pick the nearest label). -/
def sectionEndIdx : List String → List Char → Option Nat
  | [], _ => none
  | lab :: rest, tail =>
    match mSearchIdx (labelPat lab) tail with
    | some c => if c > 0 then some c else sectionEndIdx rest tail
    | none => sectionEndIdx rest tail

/-- `section(label, blob)`. -/
def sectionCL (label : String) (blob : List Char) : Option (List Char) :=
  match mSearchIdx (labelPat label) blob with
  | none => none
  | some startIdx =>
    let tail := blob.drop (startIdx + 1)
    match sectionEndIdx sectionLabels tail with
    | none => some (blob.drop startIdx)
    | some e => some ((blob.drop startIdx).take (1 + e))

def natOfDigitsCL (l : List Char) : Nat :=
  l.foldl (fun n c => n * 10 + (c.toNat - '0'.toNat)) 0

/-- The equipment data dictionary.  Integer columns
(`pool_capacity_gallons`, `flow_rate_gpm`, `filter_1_capacity_gpm`,
`filter_2_capacity_gpm`) are `Nat`; horsepower values, which are floats
in the source, are kept as their captured numerals. -/
structure EquipmentData where
  poolCapacityGallons : Option Nat := none
  flowRateGpm : Option Nat := none
  filterPump1Make : Option String := none
  filterPump1Model : Option String := none
  filterPump1Hp : Option String := none
  filterPump2Make : Option String := none
  filterPump2Model : Option String := none
  filterPump2Hp : Option String := none
  filterPump3Make : Option String := none
  filterPump3Model : Option String := none
  filterPump3Hp : Option String := none
  jetPump1Make : Option String := none
  jetPump1Model : Option String := none
  jetPump1Hp : Option String := none
  jetPump2Make : Option String := none
  jetPump2Model : Option String := none
  jetPump2Hp : Option String := none
  filter1Type : Option String := none
  filter1Make : Option String := none
  filter1Model : Option String := none
  filter1CapacityGpm : Option Nat := none
  filter2Type : Option String := none
  filter2Make : Option String := none
  filter2Model : Option String := none
  filter2CapacityGpm : Option Nat := none
  sanitizer1Type : Option String := none
  sanitizer1Details : Option String := none
  sanitizer2Type : Option String := none
  sanitizer2Details : Option String := none
  mainDrainType : Option String := none
  mainDrainModel : Option String := none
  mainDrainInstallDate : Option String := none
  equalizerModel : Option String := none
  equalizerInstallDate : Option String := none
  filterNotes : Option String := none
  pumpNotes : Option String := none
  jetPumpNotes : Option String := none
  sanitizerNotes : Option String := none
  mainDrainNotes : Option String := none
  equalizerNotes : Option String := none
  equipmentNotes : Option String := none
  deriving Repr

/-- The pump-block `finditer` loop: up to three make hits, each with a
model searched from the match end and an HP searched in a 40-character
window after the match end. -/
def pumpHitsLoop (fuel : Nat) (prev : Option Char) (l : List Char)
    (remaining : Nat) : List (String × Option String × Option String) :=
  match fuel, remaining with
  | 0, _ => []
  | _, 0 => []
  | fuel + 1, _ =>
    match mSearchStCL patMakeCap prev l with
    | none => []
    | some (g, st) =>
      let mo := (mSearchStCL patModelCap st.prev st.rest).map
        (fun p => normModel p.1)
      let hp := (mSearchStCL patHp st.prev (st.rest.take 40)).map (·.1)
      (normMake g, mo, hp) ::
        (if st.rest.length < l.length then
          pumpHitsLoop fuel st.prev st.rest (remaining - 1)
        else [])

/-- `.strip().strip(",;")`. -/
def stripPunct (s : String) : String :=
  ⟨stripCharsCL [',', ';'] (stripCL s.data)⟩

/-- Final-cleanup pass for one string-valued field. -/
def cleanupField (key : String) (v : Option String) :
    Option String × List String :=
  match v with
  | none => (none, [])
  | some s =>
    let vv := stripPunct s
    if vv.data.length = 1 then
      (none, ["Dropped 1-char token from " ++ key ++ ": '" ++ vv ++ "'"])
    else (if vv = "" then none else some vv, [])

/-- Weak-model pass for one model field. -/
def weakModelDrop (key : String) (v : Option String) :
    Option String × List String :=
  match v with
  | none => (none, [])
  | some s =>
    let v' := stripPunct s
    if (v'.data ≠ [] && v'.data.all Char.isDigit) || v'.data.length < 3 then
      (none, ["Dropped weak model token from " ++ key ++ ": '" ++ v' ++ "'"])
    else (some s, [])

/-- `TYPE_MAP` of the filter block. -/
def filterTypeOf (fil : List Char) : Option String :=
  if (mSearchCL (patWordsB [mLitCi "DE"]) fil).isSome then some "DE"
  else if (mSearchCL
      (do _ ← mWordB; _ ← mLitCi "cart"; _ ← mOpt (mChr (fun c => c.toLower = 'r'))
          _ ← mLitCi "idge"; mWordB) fil).isSome then some "Cartridge"
  else if (mSearchCL (patWordsB [mLitCi "sand"]) fil).isSome then some "Sand"
  else none

/-- Sanitizer type inference keyword probes, in source order. -/
def sanitizerTypeOf (san : List Char) : Option String :=
  if (mSearchCL (patWordsB [mLitCi "liq", mLitCi "liquid", mLitCi "feeder",
      mLitCi "rc103sc"]) san).isSome then some "Liquid"
  else if (mSearchCL (patWordsB [mLitCi "tablet",
      (do _ ← mLitCi "tab"; _ ← mOpt (mChr (fun c => c.toLower = 's')); pure ())])
      san).isSome then some "Tablet"
  else if (mSearchCL (patWordsB
      [(do _ ← mLitCi "cal"; _ ← mOpt (mLitCi "cium"); _ ← mWsStar
           _ ← mLitCi "hypo"; pure ())]) san).isSome then some "Cal Hypo"
  else if (mSearchCL (patWordsB [mLitCi "gas",
      (do _ ← mLitCi "chlorine"; _ ← mWsStar; _ ← mLitCi "gas"; pure ())])
      san).isSome then some "Gas"
  else if (mSearchCL (patWordsB [mLitCi "salt", mLitCi "swg",
      mLitCi "chlorinator"]) san).isSome then some "Salt"
  else none

/-- FILTER-block results. -/
structure FilterBlockR where
  type : Option String
  make : Option String
  model : Option String
  capacityGpm : Option Nat
  notes : List String

def filterBlockOf (equipText : List Char) : FilterBlockR :=
  let fil := (sectionCL "FILTER" equipText).getD equipText
  let capg := mSearchCL patFilterCapGpm fil
  { type := filterTypeOf fil
    make := (mSearchCL patMakeCap fil).map normMake
    model := (mSearchCL patModelCap fil).map normModel
    capacityGpm := capg.map (fun g => natOfDigitsCL g.data)
    notes :=
      match capg with
      | none => []
      | some g =>
        let v := natOfDigitsCL g.data
        if 400 < v then
          ["Suspicious capacity filter_1_capacity_gpm=" ++ toString v ++
           "; retained"]
        else [] }

/-- PUMP-block results. -/
structure PumpBlockR where
  hits : List (String × Option String × Option String)
  notes : List String

def pumpBlockOf (equipText : List Char) : PumpBlockR :=
  let pmp := (sectionCL "PUMP" equipText).getD equipText
  let hits := pumpHitsLoop (pmp.length + 1) none pmp 3
  { hits := hits
    notes :=
      (match mSearchCL patCount pmp with
       | some n =>
         if hits.isEmpty then [] else ["Detected multiple pumps: x" ++ n]
       | none => []) ++
      (if (mSearchCL patSupp pmp).isSome then
         ["SUPPLEMENTAL ONLY in pump section"]
       else []) }

/-- JET-block results. -/
structure JetBlockR where
  make : Option String
  model : Option String
  hp : Option String

def jetBlockOf (equipText : List Char) : JetBlockR :=
  match sectionCL "JET" equipText with
  | none => { make := none, model := none, hp := none }
  | some j =>
    { make := (mSearchCL patMakeCap j).map normMake
      model := (mSearchCL patModelCap j).map normModel
      hp := mSearchCL patHp j }

/-- SAN-block results. -/
structure SanBlockR where
  type : Option String
  details : Option String
  notes : List String

def sanBlockOf (equipText : List Char) : SanBlockR :=
  let san := (sectionCL "SAN" equipText).getD equipText
  let details0 := (mSearchCL patSanDetails san).map cleanEquip
  match details0 with
  | none => { type := sanitizerTypeOf san, details := none, notes := [] }
  | some det =>
    let gpdHit := (mSearchCL patGpd det.data).isSome
    let lbsHit := (mSearchCL patFeedLbs det.data).isSome
    { type := sanitizerTypeOf san
      details := if gpdHit || lbsHit then none else some det
      notes :=
        (if gpdHit then ["Feed rate noted: " ++ det] else []) ++
        (if lbsHit then ["Feed rate noted: " ++ det] else []) }

/-- MAIN-DRAIN-block results. -/
structure MdBlockR where
  type : Option String
  model : Option String
  installDate : Option String
  notes : List String

def mdFutureNote (todayYear : Nat) (iso : Option String) : List String :=
  match iso with
  | some isoS =>
    let y := natOfDigitsCL (isoS.data.takeWhile (· ≠ '-'))
    if todayYear + 1 < y then ["Install date looks future: " ++ isoS] else []
  | none => []

def mdBlockOf (todayYear : Nat) (equipText : List Char) : MdBlockR :=
  let md :=
    match sectionCL "MAIN DRAIN" equipText with
    | some m => some m
    | none => sectionCL "MD" equipText
  match md with
  | none => { type := none, model := none, installDate := none, notes := [] }
  | some m =>
    let install :=
      match mSearchCL patEquipDate m with
      | none => none
      | some d => normalizeEquipDate d
    { type := some "Main Drain"
      model := (mSearchCL patMdModel m).map
        (fun g => normModel (pyReplace g "Aquastar" "AquaStar"))
      installDate := install
      notes :=
        (match mSearchCL patEquipDate m with
         | none => []
         | some d => mdFutureNote todayYear (normalizeEquipDate d)) ++
        (if (mSearchCL patSupp m).isSome then
           ["SUPPLEMENTAL ONLY in main drain section"]
         else []) }

/-- EQ-block results. -/
structure EqBlockR where
  model : Option String
  installDate : Option String
  notes : List String

def eqBlockOf (equipText : List Char) : EqBlockR :=
  let eqSec :=
    match sectionCL "EQ" equipText with
    | some e => some e
    | none => sectionCL "EQUALIZER" equipText
  match eqSec with
  | none => { model := none, installDate := none, notes := [] }
  | some e =>
    let model0 := (mSearchCL patModelCap e).map normModel
    let install :=
      match mSearchCL patEquipDate e with
      | none => none
      | some d => normalizeEquipDate d
    let suppNotes :=
      if (mSearchCL patSupp e).isSome then
        ["SUPPLEMENTAL ONLY in EQ section"]
      else []
    match model0 with
    | some mv =>
      if mv ≠ "" && (mSearchCL patPumpOrFilterFams mv.data).isSome then
        { model := none, installDate := install
          notes := suppNotes ++
            ["Likely non-equalizer token in EQ model: " ++ mv] }
      else { model := some mv, installDate := install, notes := suppNotes }
    | none => { model := none, installDate := install, notes := suppNotes }

/-- The equipment fields before the final cleanup passes. -/
def equipRaw (todayYear : Nat) (equipText : List Char) : EquipmentData :=
  let fb := filterBlockOf equipText
  let pb := pumpBlockOf equipText
  let jb := jetBlockOf equipText
  let sb := sanBlockOf equipText
  let mb := mdBlockOf todayYear equipText
  let eb := eqBlockOf equipText
  { poolCapacityGallons := (mSearchCL patCapGal equipText).map
      (fun g => natOfDigitsCL (g.data.filter (· ≠ ',')))
    flowRateGpm := (mSearchCL patFlowGpm equipText).map
      (fun g => natOfDigitsCL g.data)
    filterPump1Make := (pb.hits.get? 0).map (·.1)
    filterPump1Model := (pb.hits.get? 0).bind (·.2.1)
    filterPump1Hp := (pb.hits.get? 0).bind (·.2.2)
    filterPump2Make := (pb.hits.get? 1).map (·.1)
    filterPump2Model := (pb.hits.get? 1).bind (·.2.1)
    filterPump2Hp := (pb.hits.get? 1).bind (·.2.2)
    filterPump3Make := (pb.hits.get? 2).map (·.1)
    filterPump3Model := (pb.hits.get? 2).bind (·.2.1)
    filterPump3Hp := (pb.hits.get? 2).bind (·.2.2)
    jetPump1Make := jb.make
    jetPump1Model := jb.model
    jetPump1Hp := jb.hp
    filter1Type := fb.type
    filter1Make := fb.make
    filter1Model := fb.model
    filter1CapacityGpm := fb.capacityGpm
    sanitizer1Type := sb.type
    sanitizer1Details := sb.details
    mainDrainType := mb.type
    mainDrainModel := mb.model
    mainDrainInstallDate := mb.installDate
    equalizerModel := eb.model
    equalizerInstallDate := eb.installDate
    filterNotes := none
    pumpNotes := none
    jetPumpNotes := none
    sanitizerNotes := none
    mainDrainNotes := none
    equalizerNotes := none
    equipmentNotes := none }

/-- The final cleanup loop over the string-valued fields (in dict
insertion order); returns the cleaned fields and the appended
`equipment_notes`. -/
def cleanupPass (d : EquipmentData) : EquipmentData × List String :=
  let p01 := cleanupField "filter_pump_1_make" d.filterPump1Make
  let p02 := cleanupField "filter_pump_1_model" d.filterPump1Model
  let p03 := cleanupField "filter_pump_2_make" d.filterPump2Make
  let p04 := cleanupField "filter_pump_2_model" d.filterPump2Model
  let p05 := cleanupField "filter_pump_3_make" d.filterPump3Make
  let p06 := cleanupField "filter_pump_3_model" d.filterPump3Model
  let p07 := cleanupField "jet_pump_1_make" d.jetPump1Make
  let p08 := cleanupField "jet_pump_1_model" d.jetPump1Model
  let p09 := cleanupField "jet_pump_2_make" d.jetPump2Make
  let p10 := cleanupField "jet_pump_2_model" d.jetPump2Model
  let p11 := cleanupField "filter_1_type" d.filter1Type
  let p12 := cleanupField "filter_1_make" d.filter1Make
  let p13 := cleanupField "filter_1_model" d.filter1Model
  let p14 := cleanupField "filter_2_type" d.filter2Type
  let p15 := cleanupField "filter_2_make" d.filter2Make
  let p16 := cleanupField "filter_2_model" d.filter2Model
  let p17 := cleanupField "sanitizer_1_type" d.sanitizer1Type
  let p18 := cleanupField "sanitizer_1_details" d.sanitizer1Details
  let p19 := cleanupField "sanitizer_2_type" d.sanitizer2Type
  let p20 := cleanupField "sanitizer_2_details" d.sanitizer2Details
  let p21 := cleanupField "main_drain_type" d.mainDrainType
  let p22 := cleanupField "main_drain_model" d.mainDrainModel
  let p23 := cleanupField "main_drain_install_date" d.mainDrainInstallDate
  let p24 := cleanupField "equalizer_model" d.equalizerModel
  let p25 := cleanupField "equalizer_install_date" d.equalizerInstallDate
  ({ d with
      filterPump1Make := p01.1, filterPump1Model := p02.1
      filterPump2Make := p03.1, filterPump2Model := p04.1
      filterPump3Make := p05.1, filterPump3Model := p06.1
      jetPump1Make := p07.1, jetPump1Model := p08.1
      jetPump2Make := p09.1, jetPump2Model := p10.1
      filter1Type := p11.1, filter1Make := p12.1, filter1Model := p13.1
      filter2Type := p14.1, filter2Make := p15.1, filter2Model := p16.1
      sanitizer1Type := p17.1, sanitizer1Details := p18.1
      sanitizer2Type := p19.1, sanitizer2Details := p20.1
      mainDrainType := p21.1, mainDrainModel := p22.1
      mainDrainInstallDate := p23.1
      equalizerModel := p24.1, equalizerInstallDate := p25.1 },
   p01.2 ++ p02.2 ++ p03.2 ++ p04.2 ++ p05.2 ++ p06.2 ++ p07.2 ++ p08.2 ++
   p09.2 ++ p10.2 ++ p11.2 ++ p12.2 ++ p13.2 ++ p14.2 ++ p15.2 ++ p16.2 ++
   p17.2 ++ p18.2 ++ p19.2 ++ p20.2 ++ p21.2 ++ p22.2 ++ p23.2 ++ p24.2 ++
   p25.2)

/-- The weak-model pass over the seven model fields. -/
def weakModelPass (d : EquipmentData) : EquipmentData × List String :=
  let w1 := weakModelDrop "filter_pump_1_model" d.filterPump1Model
  let w2 := weakModelDrop "filter_pump_2_model" d.filterPump2Model
  let w3 := weakModelDrop "filter_pump_3_model" d.filterPump3Model
  let w4 := weakModelDrop "jet_pump_1_model" d.jetPump1Model
  let w5 := weakModelDrop "jet_pump_2_model" d.jetPump2Model
  let w6 := weakModelDrop "filter_1_model" d.filter1Model
  let w7 := weakModelDrop "filter_2_model" d.filter2Model
  ({ d with
      filterPump1Model := w1.1, filterPump2Model := w2.1
      filterPump3Model := w3.1, jetPump1Model := w4.1
      jetPump2Model := w5.1, filter1Model := w6.1, filter2Model := w7.1 },
   w1.2 ++ w2.2 ++ w3.2 ++ w4.2 ++ w5.2 ++ w6.2 ++ w7.2)

/-- `"; ".join(non-empty notes)`, empty result becoming NULL. -/
def joinNotes (l : List String) : Option String :=
  let s := String.intercalate "; " (l.filter (· ≠ ""))
  if s = "" then none else some s

/-- `PDFExtractor._extract_equipment_comprehensive`; `todayYear` stands
for `date.today().year` in the future-date sanity check. -/
def extractEquipmentComprehensive (todayYear : Nat) (text : String) :
    EquipmentData :=
  let equipText := text.data
  let raw := equipRaw todayYear equipText
  let cleaned := cleanupPass raw
  let weak := weakModelPass cleaned.1
  { weak.1 with
     filterNotes := joinNotes (filterBlockOf equipText).notes
     pumpNotes := joinNotes (pumpBlockOf equipText).notes
     jetPumpNotes := joinNotes []
     sanitizerNotes := joinNotes (sanBlockOf equipText).notes
     mainDrainNotes := joinNotes (mdBlockOf todayYear equipText).notes
     equalizerNotes := joinNotes (eqBlockOf equipText).notes
     equipmentNotes := joinNotes (cleaned.2 ++ weak.2) }

/-! ## Persistence (facilities, inspection reports, cascades)

The SQLite tables are lists in rowid order.  `_save_complete_data`
opens a fresh connection per call, so the connection's last-insert
rowid (the SQLite C API value backing `cursor.lastrowid`) starts at 0
and is updated only by successful inserts — in particular it is NOT
updated by an `ON CONFLICT … DO NOTHING` insert that inserts no row. -/

/-- One row of `facilities`. -/
structure FacilityRow where
  id : Nat
  name : String
  streetAddress : Option String
  city : Option String
  state : Option String
  zipCode : Option String
  phone : Option String
  facilityId : Option String
  permitHolder : Option String
  programIdentifier : Option String
  facilityType : Option String
  deriving Repr, DecidableEq

/-- One row of `inspection_reports` (the columns the insert names). -/
structure ReportRow where
  id : Nat
  facilityId : Nat
  permitId : Option String
  inspectionDate : Option String
  inspectionType : Option String
  inspectorName : Option String
  inspectorPhone : Option String
  reportRecipient : Option String
  totalViolations : Nat
  majorViolations : Nat
  pdfFilename : Option String
  pdfPath : Option String
  reportNotes : Option String
  reinspectionRequired : Bool
  closureSuspensionRequired : Bool
  barcodeData : Option String
  poolCapacityGallons : Option Nat
  poolFlowRateGpm : Option Nat
  waterChemistryDetails : Option String
  inspectionId : Option String
  createdAt : String
  deriving Repr, DecidableEq

/-- One row of `violations`. -/
structure ViolationRow where
  id : Nat
  reportId : Nat
  facilityId : Nat
  violationCode : String
  violationTitle : String
  observations : String
  codeDescription : String
  isMajorViolation : Bool
  correctiveAction : Option String
  severityLevel : Nat
  deriving Repr, DecidableEq

/-- One row of `equipment` (holder for the comprehensive data). -/
structure EquipmentRow where
  id : Nat
  reportId : Nat
  facilityId : Nat
  data : EquipmentData
  equipmentMatchesEmd : Bool
  deriving Repr

/-- The persistent store reached through `sqlite3.connect`, plus the
error log written through `error_handler.log_error`. -/
structure DB where
  facilities : List FacilityRow
  reports : List ReportRow
  violationRows : List ViolationRow
  equipmentRows : List EquipmentRow
  errorLog : List String
  deriving Repr

/-- Fresh rowid over a list of existing ids. -/
def nextIdOf (ids : List Nat) : Nat := ids.foldr max 0 + 1

/-- The full data dictionary assembled by `extract_and_save`. -/
structure ExtractData where
  inspectionId : Option String
  facilityName : Option String
  permitId : Option String
  establishmentId : Option String
  inspectionDate : Option String
  expectedDate : Option String
  dateVerified : Option Bool
  programIdentifier : Option String
  rawAddress : RawAddress
  permitHolder : Option String
  phone : Option String
  inspectionType : Option String
  pdfFilename : String
  pdfPath : String
  inspectorName : Option String
  inspectorPhone : Option String
  reportRecipient : Option String
  barcodeData : Option String
  reinspectionRequired : Bool
  closureSuspensionRequired : Bool
  violations : List Violation
  equipment : EquipmentData
  waterChemistry : WaterChemistry
  reportNotes : Option String
  fullText : String
  deriving Repr

/-- Python truthiness of an optional string (`None` and `""` falsy). -/
def truthyStr : Option String → Bool
  | none => false
  | some s => s ≠ ""

/-- `data.get('facility_name') or "Unknown Facility"`. -/
def facilityRawName (data : ExtractData) : String :=
  match data.facilityName with
  | some s => if s = "" then "Unknown Facility" else s
  | none => "Unknown Facility"

/-- `PDFExtractor._get_or_create_facility`: title-case the name, look it
up, update the address/contact fields in place only when a street
address was extracted, else insert a new row.  Returns the facility id,
the updated table, and the connection's last-insert rowid (updated only
by an actual insert). -/
def getOrCreateFacility (facilities : List FacilityRow) (data : ExtractData)
    (lastRowid : Nat) : Nat × List FacilityRow × Nat :=
  let facilityName := pyTitle (facilityRawName data)
  let addressData := data.rawAddress
  let facilityType := determineFacilityType data.fullText data.programIdentifier
  match facilities.find? (fun r => r.name = facilityName) with
  | some row =>
    if truthyStr addressData.streetAddress then
      (row.id,
       facilities.map (fun r =>
         if r.id = row.id then
           { r with streetAddress := addressData.streetAddress
                    city := addressData.city
                    zipCode := addressData.zipCode
                    facilityId := data.establishmentId
                    permitHolder := data.permitHolder
                    phone := data.phone }
         else r),
       lastRowid)
    else (row.id, facilities, lastRowid)
  | none =>
    let fid := nextIdOf (facilities.map (·.id))
    (fid,
     facilities ++ [{
       id := fid
       name := facilityName
       streetAddress := addressData.streetAddress
       city := addressData.city
       state := some "CA"
       zipCode := addressData.zipCode
       phone := data.phone
       facilityId := data.establishmentId
       permitHolder := data.permitHolder
       programIdentifier := data.programIdentifier
       facilityType := some facilityType }],
     fid)

/-- Modelled from the spec: the deployed DDL of `inspection_reports` is
not under `src/` (the `init_schema` in `src/src/core/database.py` is a
stale subset that lacks several of the inserted columns and would make
every insert fail); the spec records `inspection_id UNIQUE-effective`,
and the source's `INSERT … ON CONFLICT(inspection_id) DO NOTHING` can
only prepare against a unique index on `inspection_id`.  This is
SQLite's insert-or-ignore against that index: a row whose non-NULL
`inspection_id` already appears is silently skipped (NULLs never
conflict), and the connection's last-insert rowid is updated only when
a row is really inserted. -/
def insertReportOrIgnore (reports : List ReportRow) (row : ReportRow)
    (lastRowid : Nat) : List ReportRow × Nat :=
  match row.inspectionId with
  | some iid =>
    if reports.any (fun r => r.inspectionId = some iid) then
      (reports, lastRowid)
    else (reports ++ [row], row.id)
  | none => (reports ++ [row], row.id)

/-- `str(water_chemistry) if water_chemistry else None`: the dict is
empty (falsy) exactly when every probe missed. -/
def waterChemistryDetailsOf (wc : WaterChemistry) : Option String :=
  if wc.freeChlorine.isNone && wc.totalChlorine.isNone &&
     wc.combinedChlorine.isNone && wc.ph.isNone && wc.alkalinityPpm.isNone &&
     wc.cyanuricAcidPpm.isNone && wc.calciumHardness.isNone &&
     wc.waterTemp.isNone then none
  else some (toString (repr wc))

/-- The structured success value returned by `_save_complete_data`. -/
structure SaveResult where
  facilityId : Nat
  reportId : Nat
  totalViolations : Nat
  majorViolations : Nat
  actualInspectionDate : String
  dateVerified : Option Bool
  success : Bool
  deriving Repr, DecidableEq

/-- `_save_violations`: one insert per extracted violation. -/
def saveViolations (violations : List Violation) (reportId facilityId : Nat)
    (rows : List ViolationRow) : List ViolationRow :=
  violations.foldl
    (fun acc v =>
      acc ++ [{
        id := nextIdOf (acc.map (·.id))
        reportId := reportId
        facilityId := facilityId
        violationCode := v.violationCode
        violationTitle := v.violationTitle
        observations := v.observations
        codeDescription := v.codeDescription
        isMajorViolation := v.isMajorViolation
        correctiveAction := v.correctiveAction
        severityLevel := v.severityLevel }])
    rows

/-- The `inspection_reports` row assembled by `_save_complete_data`. -/
def reportRowOf (nowIso : String) (data : ExtractData) (db : DB)
    (facilityId : Nat) : ReportRow :=
  { id := nextIdOf (db.reports.map (·.id))
    facilityId := facilityId
    permitId := data.permitId
    inspectionDate := data.inspectionDate
    inspectionType := data.inspectionType
    inspectorName := data.inspectorName
    inspectorPhone := data.inspectorPhone
    reportRecipient := data.reportRecipient
    totalViolations := data.violations.length
    majorViolations := (data.violations.filter (·.isMajorViolation)).length
    pdfFilename := some data.pdfFilename
    pdfPath := some data.pdfPath
    reportNotes := data.reportNotes
    reinspectionRequired := data.reinspectionRequired
    closureSuspensionRequired := data.closureSuspensionRequired
    barcodeData := data.barcodeData
    poolCapacityGallons := data.equipment.poolCapacityGallons
    poolFlowRateGpm := data.equipment.flowRateGpm
    waterChemistryDetails := waterChemistryDetailsOf data.waterChemistry
    inspectionId := data.inspectionId
    createdAt := nowIso }

/-- `PDFExtractor._save_complete_data`: reject a missing inspection date
before touching the store; otherwise upsert the facility, insert the
report (insert-or-ignore on the inspection identifier), and cascade the
violation and equipment rows; `nowIso` stands for
`datetime.utcnow().isoformat()`. -/
def saveCompleteData (nowIso : String) (data : ExtractData) (db : DB) :
    Option SaveResult × DB :=
  if !truthyStr data.inspectionDate then
    (none,
     { db with errorLog := db.errorLog ++
         ["Database Save Blocked: Inspection date is null after normalization."] })
  else
    let fres := getOrCreateFacility db.facilities data 0
    let facilityId := fres.1
    let facilities' := fres.2.1
    let lastRowid1 := fres.2.2
    let totalViolations := data.violations.length
    let majorViolations := (data.violations.filter (·.isMajorViolation)).length
    let row := reportRowOf nowIso data db facilityId
    let ins := insertReportOrIgnore db.reports row lastRowid1
    let reports' := ins.1
    let reportId := ins.2
    let violationRows' :=
      if data.violations.isEmpty then db.violationRows
      else saveViolations data.violations reportId facilityId db.violationRows
    let equipmentRows' :=
      db.equipmentRows ++ [{
        id := nextIdOf (db.equipmentRows.map (·.id))
        reportId := reportId
        facilityId := facilityId
        data := data.equipment
        equipmentMatchesEmd := true }]
    (some {
       facilityId := facilityId
       reportId := reportId
       totalViolations := totalViolations
       majorViolations := majorViolations
       actualInspectionDate := (data.inspectionDate).getD ""
       dateVerified := data.dateVerified
       success := true },
     { db with
         facilities := facilities'
         reports := reports'
         violationRows := violationRows'
         equipmentRows := equipmentRows' })

/-- `_verify_date_match`. -/
def verifyDateMatch (parse : String → Option SDate)
    (actualDate expectedDate : String) : Bool :=
  normalizeDateForComparison parse (some actualDate) =
    normalizeDateForComparison parse (some expectedDate)

/-- The data dictionary built by `extract_and_save` (lines 46–106);
the `os.rename` of the source document is an external file-system
effect, so the path argument is used unchanged. -/
def buildData (parse : String → Option SDate) (todayYear : Nat)
    (text : String) (facilityName inspectionId expectedDate : Option String)
    (pdfPath : String) : ExtractData :=
  let actualInspectionDate := findDate parse text
  let dateVerified :=
    if truthyStr expectedDate && truthyStr actualInspectionDate then
      some (verifyDateMatch parse (actualInspectionDate.getD "")
        (expectedDate.getD ""))
    else none
  let normalizedDate := normalizeDateForComparison parse
    (match actualInspectionDate with
     | some a => if a = "" then expectedDate else some a
     | none => expectedDate)
  { inspectionId := inspectionId
    facilityName := facilityName
    permitId := findPermitId text
    establishmentId := findEstablishmentId text
    inspectionDate := normalizedDate
    expectedDate := expectedDate
    dateVerified := dateVerified
    programIdentifier := findProgramIdentifier text
    rawAddress := extractAddress text
    permitHolder := extractPermitHolder text
    phone := extractPhone text
    inspectionType := extractInspectionType text
    pdfFilename := ⟨(pdfPath.data.reverse.takeWhile (· ≠ '/')).reverse⟩
    pdfPath := pdfPath
    inspectorName := extractInspectorName text
    inspectorPhone := extractInspectorPhone text
    reportRecipient := extractReportRecipient text
    barcodeData := extractBarcodeData text
    reinspectionRequired := extractReinspectionRequired text
    closureSuspensionRequired := extractClosureSuspensionRequired text
    violations := extractViolations text
    equipment := extractEquipmentComprehensive todayYear text
    waterChemistry := extractWaterChemistry text
    reportNotes := extractReportNotes text
    fullText := text }

/-- `PDFExtractor.extract_and_save` given the already-extracted text
(`extract_text` is the external `fitz` reader): the empty-text guard,
then the per-field best-effort extraction, then the gated save.  The
`with_error_handling` decorator turns any internal exception into
`None`; every operation in this embedding is total, so the result type
is exactly the decorator's contract. -/
def extractAndSaveFromText (parse : String → Option SDate) (todayYear : Nat)
    (nowIso : String) (text : String)
    (facilityName inspectionId expectedDate : Option String)
    (pdfPath : String) (db : DB) : Option SaveResult × DB :=
  if text = "" then (none, db)
  else
    saveCompleteData nowIso
      (buildData parse todayYear text facilityName inspectionId expectedDate
        pdfPath) db

/-! ## Concrete fixtures used by counterexamples and witnesses -/

/-- A pending record after its initial store at minute 100 with
`max_retries = 3` (the configuration named by the retry claim). -/
def recModel : FailedDownloadRecord :=
  { id := 1
    facilityName := "Pool A"
    inspectionId := some "ABC123"
    pdfUrl := some "http://x/y.pdf"
    inspectionDate := some "2024-03-15"
    failureReason := some "timeout"
    failureDetails := none
    retryCount := 0
    maxRetries := 3
    nextRetryAt := some 105
    originalBatchId := none
    status := "pending"
    createdAt := 100
    lastRetryAt := none }

/-- A pending record whose `next_retry_at` is NULL. -/
def recNullRetry : FailedDownloadRecord :=
  { recModel with id := 2, nextRetryAt := none }

/-- Deterministic stand-in for the external `dateutil` parser on the
date strings occurring in the fixtures (the slash form found in the
report text and its own ISO rendering, which `_save_complete_data`'s
callers feed back through the parser). -/
def demoParse (s : String) : Option SDate :=
  if s = "03/15/2024" || s = "2024-03-15" then some ⟨2024, 3, 15⟩ else none

/-- The extraction-data fixture for the duplicate-save claim: one
violation, a resolvable date, and a stable inspection identifier. -/
def dataDup : ExtractData :=
  { inspectionId := some "ABC123"
    facilityName := some "sunset pool"
    permitId := some "FA001"
    establishmentId := some "EST9"
    inspectionDate := some "2024-03-15"
    expectedDate := none
    dateVerified := none
    programIdentifier := none
    rawAddress :=
      { streetAddress := some "2330 Hurley Way", city := some "Sacramento",
        zipCode := some "95825", state := "CA", county := "Sacramento" }
    permitHolder := some "Owner LLC"
    phone := none
    inspectionType := some "ROUTINE"
    pdfFilename := "x.pdf"
    pdfPath := "/tmp/x.pdf"
    inspectorName := none
    inspectorPhone := none
    reportRecipient := none
    barcodeData := none
    reinspectionRequired := false
    closureSuspensionRequired := false
    violations := [{
      violationCode := "1"
      violationTitle := "POOL SAFETY"
      observations := "MAJOR VIOLATION present"
      codeDescription := "..."
      isMajorViolation := true
      correctiveAction := none
      severityLevel := 3
      correctionDeadlineDays := none }]
    equipment := {}
    waterChemistry :=
      { freeChlorine := none, totalChlorine := none, combinedChlorine := none,
        ph := none, alkalinityPpm := none, cyanuricAcidPpm := none,
        calciumHardness := none, waterTemp := none }
    reportNotes := none
    fullText := "" }

/-- An existing facility row for the upsert claim (its name is the
title-cased form of the extraction fixture's facility name). -/
def facRow : FacilityRow :=
  { id := 1
    name := "Sunset Pool"
    streetAddress := some "Old St"
    city := some "Old City"
    state := some "CA"
    zipCode := some "00000"
    phone := none
    facilityId := none
    permitHolder := none
    programIdentifier := none
    facilityType := some "POOL" }

/-- The empty store. -/
def emptyDB : DB :=
  { facilities := [], reports := [], violationRows := [], equipmentRows := [],
    errorLog := [] }

/-- The violation-boundary text of the extraction claim. -/
def demoVText : String :=
  "1. POOL SAFETY\nObservations: MAJOR VIOLATION present\nCode Description: ...\n2. NEXT ITEM"

/-- A report text carrying an extractable "Date Entered" anchor and one
major violation. -/
def demoDateText : String :=
  "Date Entered 03/15/2024\n" ++ demoVText

/-- The first violation extracted from `demoVText`. -/
def demoViol1 : Violation :=
  { violationCode := "1", violationTitle := "POOL SAFETY",
    observations := "MAJOR VIOLATION present", codeDescription := "...",
    isMajorViolation := true, correctiveAction := none,
    severityLevel := 3, correctionDeadlineDays := none }

/-- A garbage input with no extractable field. -/
def garbageText : String := "@@@@ %%%% ^^^^"

/-- All water-chemistry probes absent. -/
def emptyChem : WaterChemistry :=
  { freeChlorine := none, totalChlorine := none, combinedChlorine := none,
    ph := none, alkalinityPpm := none, cyanuricAcidPpm := none,
    calciumHardness := none, waterTemp := none }

/-- A two-caller configuration: caller 0 in process 0, caller 1 in
process 1. -/
def cfgTwo : LockCfg := { pid := fun c => c, job := fun c => toString c }

/-- A state in which caller 0 has been granted the lock and caller 1
has not started. -/
def sGranted : SysState :=
  { flock := some 0
    fileData := some (0, 0)
    localHeld := fun p => p = 0
    phase := fun c => if c = 0 then .granted else .idle }

/-! # Theorems

Claim theorems, their witnesses and counterexamples, and the helper
lemmas they rely on. -/

/-! ### Retry scheduling (C3) -/

/-- `find?` through a `map` that rewrites exactly the rows whose id
matches: the first matching row is found, transformed. -/
theorem find_update_row (rid : Nat)
    (f : FailedDownloadRecord → FailedDownloadRecord)
    (hid : ∀ r, (f r).id = r.id) :
    ∀ t : FailedTable,
      (t.map (fun r => if r.id = rid then f r else r)).find?
          (fun r => r.id = rid) =
        (t.find? (fun r => r.id = rid)).map f := by
  intro t
  induction t with
  | nil => simp
  | cons x xs ih =>
    by_cases hx : x.id = rid
    · simp [List.find?_cons, hx, hid]
    · simp [List.find?_cons, hx, ih]

/-- C3 (amended): `store_failed_download` inserts a pending record with
`retry_count = 0` and `next_retry_at = now + 5` minutes; an unsuccessful
`update_retry_attempt` increments `retry_count` and, while the new count
is below `max_retries`, schedules `next_retry_at = now + 5·3^new_count`
minutes (so a `max_retries = 3` record is rescheduled 15 and 45 minutes
after failures 1 and 2 — the 5-minute offset is only the initial one set
at store time) leaving the status field untouched; once the new count
reaches `max_retries` the status becomes `failed` and `next_retry_at` is
not rescheduled. -/
theorem C3_retry_backoff_schedule :
    (∀ now fn url iid idate reason details batch maxr t, ∃ r,
      (storeFailedDownload now fn url iid idate reason details batch maxr
        t).2 = t ++ [r] ∧
      r.status = "pending" ∧ r.retryCount = 0 ∧
      r.nextRetryAt = some (now + 5) ∧ r.createdAt = now ∧
      r.maxRetries = maxr) ∧
    (∀ now rid fr fd t row, t.find? (fun r => r.id = rid) = some row →
      row.retryCount + 1 < row.maxRetries →
      (updateRetryAttempt now rid false fr fd t).find?
          (fun r => r.id = rid) =
        some { row with retryCount := row.retryCount + 1
                        lastRetryAt := some now
                        nextRetryAt := some (now + 5 * 3 ^ (row.retryCount + 1))
                        failureReason := fr
                        failureDetails := fd }) ∧
    (∀ now rid fr fd t row, t.find? (fun r => r.id = rid) = some row →
      row.maxRetries ≤ row.retryCount + 1 →
      (updateRetryAttempt now rid false fr fd t).find?
          (fun r => r.id = rid) =
        some { row with retryCount := row.retryCount + 1
                        status := "failed"
                        lastRetryAt := some now
                        failureReason := fr
                        failureDetails := fd }) := by
  refine ⟨?_, ?_, ?_⟩
  · intro now fn url iid idate reason details batch maxr t
    exact ⟨_, rfl, rfl, rfl, rfl, rfl, rfl⟩
  · intro now rid fr fd t row hfind hlt
    unfold updateRetryAttempt
    simp only [if_neg (by simp : ¬ (false = true)), hfind]
    rw [if_neg (by omega)]
    have h := find_update_row rid
      (fun r => { r with retryCount := row.retryCount + 1
                         lastRetryAt := some now
                         nextRetryAt := some (now + 5 * 3 ^ (row.retryCount + 1))
                         failureReason := fr
                         failureDetails := fd })
      (fun r => rfl) t
    rw [h, hfind]
    rfl
  · intro now rid fr fd t row hfind hge
    unfold updateRetryAttempt
    simp only [if_neg (by simp : ¬ (false = true)), hfind]
    rw [if_pos (by omega)]
    have h := find_update_row rid
      (fun r => { r with retryCount := row.retryCount + 1
                         status := "failed"
                         lastRetryAt := some now
                         failureReason := fr
                         failureDetails := fd })
      (fun r => rfl) t
    rw [h, hfind]
    rfl

/-- C3 witness: the backoff schedule applied to a concrete
`max_retries = 3` record — the first failure at minute 200 reschedules
to minute 215 (15 minutes), and a record at its final attempt turns
`failed`. -/
theorem C3_retry_backoff_schedule_witness :
    (updateRetryAttempt 200 1 false (some "again") none [recModel]).find?
        (fun r => r.id = 1) =
      some { recModel with retryCount := 1
                           lastRetryAt := some 200
                           nextRetryAt := some (200 + 5 * 3 ^ 1)
                           failureReason := some "again"
                           failureDetails := none } :=
  C3_retry_backoff_schedule.2.1 200 1 (some "again") none [recModel] recModel
    (by decide) (by decide)

/-- C3 counterexample: the claim's "offsets from the times of failures
1, 2, 3 are 5, 15, 45 minutes" is false on the code — the first failure
of a fresh `max_retries = 3` record at minute 200 schedules
`next_retry_at` 15 minutes out, not 5; and the third failure makes the
record terminal instead of scheduling 45 minutes. -/
theorem C3_counterexample :
    ((updateRetryAttempt 200 1 false none none [recModel]).find?
        (fun r => r.id = 1)).map (·.nextRetryAt) = some (some (200 + 15)) ∧
    (200 + 15 : Nat) ≠ 200 + 5 ∧
    ((updateRetryAttempt 300 1 false none none
        [{ recModel with retryCount := 2 }]).find?
        (fun r => r.id = 1)).map (fun r => (r.status, r.nextRetryAt)) =
      some ("failed", some 105) := by
  refine ⟨by decide, by decide, by decide⟩

/-! ### Retry readiness query (C7) -/

theorem mem_insertByCreated {r x : FailedDownloadRecord}
    {l : List FailedDownloadRecord} :
    x ∈ insertByCreated r l ↔ x = r ∨ x ∈ l := by
  induction l with
  | nil => simp [insertByCreated]
  | cons y ys ih =>
    by_cases h : y.createdAt ≤ r.createdAt <;>
      simp [insertByCreated, h, ih] <;> tauto

theorem mem_sortByCreated {x : FailedDownloadRecord}
    {l : List FailedDownloadRecord} :
    x ∈ sortByCreated l ↔ x ∈ l := by
  induction l with
  | nil => simp [sortByCreated]
  | cons y ys ih => simp [sortByCreated, mem_insertByCreated, ih]

theorem length_insertByCreated (r : FailedDownloadRecord)
    (l : List FailedDownloadRecord) :
    (insertByCreated r l).length = l.length + 1 := by
  induction l with
  | nil => simp [insertByCreated]
  | cons y ys ih =>
    by_cases h : y.createdAt ≤ r.createdAt <;> simp [insertByCreated, h, ih]

theorem length_sortByCreated (l : List FailedDownloadRecord) :
    (sortByCreated l).length = l.length := by
  induction l with
  | nil => simp [sortByCreated]
  | cons y ys ih => simp [sortByCreated, length_insertByCreated, ih]

/-- The ascending-`created_at` ordering. -/
def crLe (a b : FailedDownloadRecord) : Prop := a.createdAt ≤ b.createdAt

theorem pairwise_insertByCreated {r : FailedDownloadRecord}
    {l : List FailedDownloadRecord} (h : l.Pairwise crLe) :
    (insertByCreated r l).Pairwise crLe := by
  induction l with
  | nil => simp [insertByCreated, List.pairwise_singleton]
  | cons y ys ih =>
    rcases List.pairwise_cons.mp h with ⟨hy, hys⟩
    by_cases hc : y.createdAt ≤ r.createdAt
    · simp only [insertByCreated, if_pos hc]
      refine List.pairwise_cons.mpr ⟨?_, ih hys⟩
      intro z hz
      rcases mem_insertByCreated.mp hz with rfl | hz'
      · exact hc
      · exact hy z hz'
    · simp only [insertByCreated, if_neg hc]
      refine List.pairwise_cons.mpr ⟨?_, h⟩
      intro z hz
      have hr : r.createdAt ≤ y.createdAt :=
        Nat.le_of_lt (Nat.lt_of_not_le hc)
      rcases List.mem_cons.mp hz with rfl | hz'
      · exact hr
      · exact Nat.le_trans hr (hy z hz')

theorem pairwise_sortByCreated (l : List FailedDownloadRecord) :
    (sortByCreated l).Pairwise crLe := by
  induction l with
  | nil => simp [sortByCreated]
  | cons y ys ih => exact pairwise_insertByCreated ih

/-- C7 counterexample: a pending record whose `next_retry_at` is NULL is
returned by `get_records_ready_for_retry` even though it does not
satisfy `next_retry_at <= now` — the SQL filter also admits
`next_retry_at IS NULL`, which the claim omits. -/
theorem C7_counterexample :
    getRecordsReadyForRetry 1000 10 [recNullRetry] = [recNullRetry] ∧
    recNullRetry.nextRetryAt = none ∧
    recNullRetry.status = "pending" ∧
    recNullRetry.retryCount < recNullRetry.maxRetries := by
  refine ⟨?_, rfl, rfl, by decide⟩
  rfl

/-- C7 (amended): `get_records_ready_for_retry(limit)` returns exactly
the records with status `pending`, `retry_count < max_retries`, and
`next_retry_at` either NULL or `<= now` (no others), at most `limit` of
them, ordered by creation time with the oldest first. -/
theorem C7_ready_query_characterisation (now limit : Nat) (t : FailedTable) :
    (getRecordsReadyForRetry now limit t).length ≤ limit ∧
    (∀ r ∈ getRecordsReadyForRetry now limit t,
      r ∈ t ∧ r.status = "pending" ∧ r.retryCount < r.maxRetries ∧
      (r.nextRetryAt = none ∨ ∃ m, r.nextRetryAt = some m ∧ m ≤ now)) ∧
    (∀ r ∈ t, readyForRetry now r = true →
      (t.filter (readyForRetry now)).length ≤ limit →
      r ∈ getRecordsReadyForRetry now limit t) ∧
    (getRecordsReadyForRetry now limit t).Pairwise
      (fun a b => a.createdAt ≤ b.createdAt) := by
  refine ⟨?_, ?_, ?_, ?_⟩
  · simpa [getRecordsReadyForRetry] using
      List.length_take_le limit (sortByCreated (t.filter (readyForRetry now)))
  · intro r hr
    have hsort : r ∈ sortByCreated (t.filter (readyForRetry now)) :=
      List.mem_of_mem_take hr
    have hfil : r ∈ t.filter (readyForRetry now) := mem_sortByCreated.mp hsort
    rcases List.mem_filter.mp hfil with ⟨hmem, hpred⟩
    refine ⟨hmem, ?_, ?_, ?_⟩
    · have := hpred
      simp only [readyForRetry, Bool.and_eq_true, decide_eq_true_eq] at this
      exact this.1.1
    · have := hpred
      simp only [readyForRetry, Bool.and_eq_true, decide_eq_true_eq] at this
      exact this.1.2
    · have := hpred
      simp only [readyForRetry, Bool.and_eq_true, Bool.or_eq_true,
        decide_eq_true_eq] at this
      rcases this.2 with hnone | hle
      · exact Or.inl (Option.isNone_iff_eq_none.mp hnone)
      · cases hopt : r.nextRetryAt with
        | none => exact Or.inl rfl
        | some m =>
          refine Or.inr ⟨m, rfl, ?_⟩
          rw [hopt] at hle
          simpa using hle
  · intro r hmem hpred hlen
    have hfil : r ∈ t.filter (readyForRetry now) :=
      List.mem_filter.mpr ⟨hmem, hpred⟩
    have hsort : r ∈ sortByCreated (t.filter (readyForRetry now)) :=
      mem_sortByCreated.mpr hfil
    have hlen' : (sortByCreated (t.filter (readyForRetry now))).length ≤ limit := by
      rw [length_sortByCreated]; exact hlen
    unfold getRecordsReadyForRetry
    rw [List.take_of_length_le hlen']
    exact hsort
  · exact (pairwise_sortByCreated (t.filter (readyForRetry now))).sublist
      (List.take_sublist _ _)

/-- C7 witness: the amended query characterisation at a one-row table
whose record is due. -/
theorem C7_ready_query_witness :
    recModel ∈ getRecordsReadyForRetry 1000 10 [recModel] :=
  (C7_ready_query_characterisation 1000 10 [recModel]).2.2.1 recModel
    (by simp) (by decide) (by decide)

/-! ### Single-flight lock (C1, C6) -/

/-- C1: in the interleaved system of any number of callers (several
threads per OS process and several processes), at most one caller at a
time is past a successful `flock` and before its release's unlock — in
particular at most one concurrent `acquire` succeeds; and from a state
in which some caller holds the grant, running that caller's `release`
to completion and then any fresh caller's `acquire` reaches a grant:
the released lock is immediately acquirable with no residual state. -/
theorem C1_single_flight_lock (cfg : LockCfg) :
    (∀ s, SysReach cfg s → ∀ c d, ActiveHolder s c → ActiveHolder s d →
      c = d) ∧
    (∀ s a c, s.phase a = .granted → s.phase c = .idle → c ≠ a →
      (cfg.pid c = cfg.pid a ∨ s.localHeld (cfg.pid c) = false) →
      ∃ s', Relation.ReflTransGen (LockStep cfg) s s' ∧
        s'.phase c = .granted) := by
  constructor
  · intro s hreach c d hc hd
    have hinv := sysReach_inv hreach
    have h1 := (hinv c).mp hc
    have h2 := (hinv d).mp hd
    rw [h1] at h2
    exact (Option.some.injEq _ _).mp h2
  · intro s a c hga hc hca hlc
    exact release_then_acquire cfg s a c hga hc hca hlc

/-- An idle caller with a free lock and a clear process flag acquires
to a grant (helper for the witnesses). -/
theorem acquire_run (cfg : LockCfg) (s : SysState) (c : Nat)
    (hc : s.phase c = .idle) (hl : s.localHeld (cfg.pid c) = false)
    (hf : s.flock = none) :
    ∃ s', Relation.ReflTransGen (LockStep cfg) s s' ∧
      s'.phase c = .granted ∧ s'.flock = some c := by
  refine ⟨_, Relation.ReflTransGen.tail (Relation.ReflTransGen.tail
    (Relation.ReflTransGen.single (LockStep.localOk s c hc hl))
    (LockStep.flockOk _ c ?_ ?_))
    (LockStep.writeHolder _ c ?_), ?_, ?_⟩
  · simp
  · simp [hf]
  · simp
  · simp
  · simp

/-- C1 witness: with two callers in different processes, a concretely
reached state has caller 0 as the unique active holder, and from the
granted fixture caller 1's acquire succeeds after caller 0's release. -/
theorem C1_single_flight_lock_witness :
    (∃ s', Relation.ReflTransGen (LockStep cfgTwo) sGranted s' ∧
      s'.phase 1 = .granted) ∧
    (∃ s', SysReach cfgTwo s' ∧ ActiveHolder s' 0 ∧
      ∀ d, ActiveHolder s' d → (0 : Nat) = d) := by
  constructor
  · exact (C1_single_flight_lock cfgTwo).2 sGranted 0 1 (by simp [sGranted])
      (by simp [sGranted]) (by decide) (Or.inr (by simp [sGranted, cfgTwo]))
  · obtain ⟨s', hreach', hph, _⟩ := acquire_run cfgTwo initSys 0 rfl rfl rfl
    refine ⟨s', hreach', Or.inr hph, ?_⟩
    intro d hd
    exact (C1_single_flight_lock cfgTwo).1 s' hreach' 0 d (Or.inr hph) hd

/-- C6: `acquire` is a total function of its inputs (the embedding of
"never throws"); when the in-process flag is already held it denies
immediately with the message naming the holder's job id, pid and lock
age, leaving all state — in particular the lock file — untouched; a
denial by the file lock or any unexpected OS error returns a structured
denial (carrying the error message) with the in-process flag clear. -/
theorem C6_acquire_denials (env : FlockEnv) (now : Int) (jobId : String)
    (pid : Int) (s : WorkerState) :
    (s.procHeld = true →
      acquire env now jobId pid s =
        ({ granted := false, message := localDenyMsg s.procHolder now,
           holderInfo := s.procHolder }, s)) ∧
    (∀ h, s.procHeld = true → s.procHolder = some h →
      (acquire env now jobId pid s).1.message =
        "Local download already in progress (job " ++ h.jobId ++ ", pid " ++
          toString h.pid ++ ", age " ++
          toString (now - (if h.ts = 0 then now else h.ts)) ++ "s).") ∧
    (∀ fh, s.procHeld = false → env = .busy fh →
      (acquire env now jobId pid s).1.granted = false ∧
      (acquire env now jobId pid s).2.procHeld = false ∧
      (acquire env now jobId pid s).1.message = busyDenyMsg fh now) ∧
    (∀ e, s.procHeld = false → env = .raised e →
      (acquire env now jobId pid s).1.granted = false ∧
      (acquire env now jobId pid s).2.procHeld = false ∧
      (acquire env now jobId pid s).1.message =
        "Failed to acquire lock: " ++ e) := by
  refine ⟨?_, ?_, ?_, ?_⟩
  · intro hheld
    simp [acquire, hheld]
  · intro h hheld hholder
    simp [acquire, hheld, hholder, localDenyMsg]
  · intro fh hfree henv
    subst henv
    refine ⟨?_, ?_, ?_⟩ <;> simp [acquire, hfree]
  · intro e hfree henv
    subst henv
    refine ⟨?_, ?_, ?_⟩ <;> simp [acquire, hfree]

/-- C6 witness: the denial branches evaluated at a concrete held state,
a busy file lock, and a raised OS error. -/
theorem C6_acquire_denials_witness :
    (acquire .free 50 "j2" 8
        { procHeld := true, procHolder := some ⟨"j1", 7, 30⟩,
          ownsFileLock := false, fileContent := none }).1.message =
      "Local download already in progress (job j1, pid 7, age 20s)." ∧
    (acquire (.raised "boom") 50 "j2" 8
        { procHeld := false, procHolder := none,
          ownsFileLock := false, fileContent := none }).2.procHeld = false ∧
    (acquire (.busy none) 50 "j2" 8
        { procHeld := false, procHolder := none,
          ownsFileLock := false, fileContent := none }).1.granted = false := by
  refine ⟨?_, ?_, ?_⟩
  · have := (C6_acquire_denials .free 50 "j2" 8
      { procHeld := true, procHolder := some ⟨"j1", 7, 30⟩,
        ownsFileLock := false, fileContent := none }).2.1
      ⟨"j1", 7, 30⟩ rfl rfl
    rw [this]
    rfl
  · exact ((C6_acquire_denials (.raised "boom") 50 "j2" 8
      { procHeld := false, procHolder := none,
        ownsFileLock := false, fileContent := none }).2.2.2
      "boom" rfl rfl).2.1
  · exact ((C6_acquire_denials (.busy none) 50 "j2" 8
      { procHeld := false, procHolder := none,
        ownsFileLock := false, fileContent := none }).2.2.1
      none rfl rfl).1

/-! ### Severity classification (C8) -/

/-- Over any table whose levels strictly decrease, the level that
`findSeverityPattern` reports is the highest level with any matching
pattern: the table is evaluated from highest severity to lowest and the
first match wins. -/
theorem findSeverity_maximal :
    ∀ (table : List (Nat × List (String × Mtch Unit))) (ft : List Char)
      (lvl : Nat) (pat : String),
      List.Pairwise (fun a b => b.1 < a.1) table →
      findSeverityPattern table ft = some (lvl, pat) →
      ∀ lp ∈ table,
        lp.2.any (fun p => (mSearchCL p.2 ft).isSome) = true → lp.1 ≤ lvl := by
  intro table
  induction table with
  | nil => intro ft lvl pat _ h; simp [findSeverityPattern] at h
  | cons hd rest ih =>
    intro ft lvl pat hpw hfind lp hlp hany
    obtain ⟨l0, p0s⟩ := hd
    rcases List.pairwise_cons.mp hpw with ⟨hhd, hrest⟩
    unfold findSeverityPattern at hfind
    cases hfd : p0s.find? (fun p => (mSearchCL p.2 ft).isSome) with
    | some p =>
      rw [hfd] at hfind
      simp only [Option.some.injEq, Prod.mk.injEq] at hfind
      rcases List.mem_cons.mp hlp with rfl | hlp'
      · exact Nat.le_of_eq hfind.1
      · exact Nat.le_of_lt (hfind.1 ▸ hhd lp hlp')
    | none =>
      rw [hfd] at hfind
      rcases List.mem_cons.mp hlp with rfl | hlp'
      · exfalso
        rcases List.any_eq_true.mp hany with ⟨p, hp, hps⟩
        have := List.find?_eq_none.mp hfd p hp
        simp_all
      · exact ih ft lvl pat hrest hfind lp hlp' hany

/-- C8: the severity assessor evaluates the pattern table from highest
level to lowest with the first match winning (the reported level is the
highest level with a matching pattern, tagged `pattern_matching`); if no
pattern matches it falls back to the high/medium/low keyword buckets
(levels 7/5/2) and finally to the fixed default — level 4 with
provenance tag `default`; and the closure test case is assigned level
10. -/
theorem C8_severity_order_and_fallback :
    ((assessViolationSeverity "Pool closure required"
        "Facility must be closed immediately due to safety hazard").severityLevel
        = 10 ∧
     (assessViolationSeverity "Pool closure required"
        "Facility must be closed immediately due to safety hazard").source =
        "pattern_matching") ∧
    (∀ title obs lvl pat,
      findSeverityPattern severityPatterns
          (severityFullText title obs).data = some (lvl, pat) →
      severityFullText title obs ≠ "" →
      (assessViolationSeverity title obs).severityLevel = lvl ∧
      (assessViolationSeverity title obs).source = "pattern_matching" ∧
      (assessViolationSeverity title obs).matchedPattern = pat ∧
      (∀ lp ∈ severityPatterns,
        lp.2.any (fun p =>
          (mSearchCL p.2 (severityFullText title obs).data).isSome) = true →
        lp.1 ≤ lvl)) ∧
    (∀ title obs,
      severityFullText title obs ≠ "" →
      findSeverityPattern severityPatterns
          (severityFullText title obs).data = none →
      ((highKeywords.any
          (fun k => pyContains (severityFullText title obs) k) = true →
        assessViolationSeverity title obs =
          { severityLevel := 7
            reasoning := "Contains high-priority safety keywords"
            matchedPattern := "keyword_fallback_high"
            source := "keyword_fallback" }) ∧
       (highKeywords.any
          (fun k => pyContains (severityFullText title obs) k) = false →
        mediumKeywords.any
          (fun k => pyContains (severityFullText title obs) k) = false →
        lowKeywords.any
          (fun k => pyContains (severityFullText title obs) k) = false →
        assessViolationSeverity title obs =
          { severityLevel := 4
            reasoning :=
              "Default severity assigned: No matching patterns or keywords found"
            matchedPattern := "default"
            source := "default" }))) := by
  refine ⟨⟨?_, ?_⟩, ?_, ?_⟩
  · decide
  · decide
  · intro title obs lvl pat hfind hne
    have hdesc : List.Pairwise
        (fun a b : Nat × List (String × Mtch Unit) => b.1 < a.1)
        severityPatterns := by
      have he : severityPatterns.map Prod.fst = [10, 9, 8, 7, 6, 5, 4, 3, 2, 1] :=
        rfl
      have : (severityPatterns.map Prod.fst).Pairwise (fun a b => b < a) := by
        rw [he]; decide
      exact (List.pairwise_map.mp this)
    refine ⟨?_, ?_, ?_, ?_⟩
    · simp [assessViolationSeverity, if_neg hne, hfind]
    · simp [assessViolationSeverity, if_neg hne, hfind]
    · simp [assessViolationSeverity, if_neg hne, hfind]
    · exact findSeverity_maximal severityPatterns
        (severityFullText title obs).data lvl pat hdesc hfind
  · intro title obs hne hnone
    constructor
    · intro hhigh
      simp [assessViolationSeverity, if_neg hne, hnone, assessByKeywords,
        hhigh]
    · intro hhigh hmed hlow
      simp only [assessViolationSeverity, if_neg hne, hnone, assessByKeywords,
        hhigh, hmed, hlow]
      rfl

/-- C8 witness: the order part instantiated at the closure test case
(the level-10 first pattern is the winner), and the default part at an
input matching no pattern and no keyword. -/
theorem C8_severity_order_witness :
    (assessViolationSeverity "Pool closure required"
        "Facility must be closed immediately due to safety hazard").matchedPattern
      = "(facility|pool|spa).*?(closed|closure|suspended|shutdown)" ∧
    (assessViolationSeverity "zzz" "qqq").matchedPattern = "default" := by
  constructor
  · exact (C8_severity_order_and_fallback.2.1 "Pool closure required"
      "Facility must be closed immediately due to safety hazard" 10
      "(facility|pool|spa).*?(closed|closure|suspended|shutdown)"
      (by decide) (by decide)).2.2.1
  · have := (C8_severity_order_and_fallback.2.2 "zzz" "qqq"
      (by decide) (by decide)).2 (by decide) (by decide) (by decide)
    rw [this]

/-! ### Facility upsert frame (C10) -/

/-- C10: with an existing facility of the (title-cased) name, the six
address/contact fields are rewritten only when the extracted street
address is non-empty; with an absent or empty street address the table
is completely unchanged and only the row's id is returned; every row of
the updated table keeps its id, name, state, program identifier and
facility type; and a missing facility is inserted under the title-cased
name. -/
theorem C10_facility_update_frame (facilities : List FacilityRow)
    (data : ExtractData) (lr : Nat) :
    (∀ row,
      facilities.find? (fun r => r.name = pyTitle (facilityRawName data)) =
        some row →
      (truthyStr data.rawAddress.streetAddress = false →
        getOrCreateFacility facilities data lr = (row.id, facilities, lr)) ∧
      (truthyStr data.rawAddress.streetAddress = true →
        getOrCreateFacility facilities data lr =
          (row.id,
           facilities.map (fun r =>
             if r.id = row.id then
               { r with streetAddress := data.rawAddress.streetAddress
                        city := data.rawAddress.city
                        zipCode := data.rawAddress.zipCode
                        facilityId := data.establishmentId
                        permitHolder := data.permitHolder
                        phone := data.phone }
             else r), lr) ∧
        (∀ r ∈ (getOrCreateFacility facilities data lr).2.1,
          ∃ r0 ∈ facilities, r.id = r0.id ∧ r.name = r0.name ∧
            r.state = r0.state ∧
            r.programIdentifier = r0.programIdentifier ∧
            r.facilityType = r0.facilityType))) ∧
    (facilities.find? (fun r => r.name = pyTitle (facilityRawName data)) =
        none →
      ∃ nr, getOrCreateFacility facilities data lr =
        (nr.id, facilities ++ [nr], nr.id) ∧
        nr.name = pyTitle (facilityRawName data) ∧
        nr.streetAddress = data.rawAddress.streetAddress ∧
        nr.state = some "CA") := by
  constructor
  · intro row hfind
    constructor
    · intro hstreet
      simp [getOrCreateFacility, hfind, hstreet]
    · intro hstreet
      refine ⟨?_, ?_⟩
      · simp [getOrCreateFacility, hfind, hstreet]
      · intro r hr
        simp only [getOrCreateFacility, hfind, hstreet, if_true,
          List.mem_map] at hr
        rcases hr with ⟨r0, hr0, heq⟩
        refine ⟨r0, hr0, ?_⟩
        subst heq
        by_cases hid : r0.id = row.id <;> simp [hid]
  · intro hfind
    refine ⟨{ id := nextIdOf (facilities.map (·.id))
              name := pyTitle (facilityRawName data)
              streetAddress := data.rawAddress.streetAddress
              city := data.rawAddress.city
              state := some "CA"
              zipCode := data.rawAddress.zipCode
              phone := data.phone
              facilityId := data.establishmentId
              permitHolder := data.permitHolder
              programIdentifier := data.programIdentifier
              facilityType := some (determineFacilityType data.fullText
                data.programIdentifier) }, ?_, rfl, rfl, rfl⟩
    simp [getOrCreateFacility, hfind]

/-- C10 witness: with the street address absent the stored row is left
untouched and its id returned; with the street address present the same
row's id is returned after the in-place update. -/
theorem C10_facility_update_frame_witness :
    getOrCreateFacility [facRow]
        { dataDup with rawAddress :=
            { dataDup.rawAddress with streetAddress := none } } 0 =
      (1, [facRow], 0) ∧
    (getOrCreateFacility [facRow] dataDup 0).1 = 1 := by
  constructor
  · exact ((C10_facility_update_frame [facRow]
      { dataDup with rawAddress :=
          { dataDup.rawAddress with streetAddress := none } } 0).1 facRow
      (by decide)).1 (by decide)
  · have h := ((C10_facility_update_frame [facRow] dataDup 0).1 facRow
      (by decide)).2 (by decide)
    rw [h.1]
    rfl


/-! ### Date rejection at the persistence boundary (C4) -/

/-- Whatever `normalize` returns, a present result is the ISO rendering
of a successfully parsed date. -/
theorem normalize_some_iso (parse : String → Option SDate)
    (x : Option String) (s : String)
    (h : normalizeDateForComparison parse x = some s) :
    ∃ raw d, parse raw = some d ∧ s = isoFormat d := by
  cases x with
  | none => simp [normalizeDateForComparison] at h
  | some str =>
    by_cases hstr : str = ""
    · simp [normalizeDateForComparison, hstr] at h
    · simp only [normalizeDateForComparison, if_neg hstr] at h
      cases hp : parse str with
      | none => rw [hp] at h; simp at h
      | some d =>
        rw [hp] at h
        simp only [Option.map_some', Option.some.injEq] at h
        exact ⟨str, d, hp, h.symm⟩

/-- C4: a report whose inspection date cannot be resolved is
hard-rejected by `_save_complete_data` — the save returns `None`,
writes no facility, report, violation or equipment row, and logs an
error; every date the pipeline hands to persistence was produced by the
permissive parser and formatted `YYYY-MM-DD`; and every report row the
save adds carries exactly that normalized date. -/
theorem C4_date_gate (parse : String → Option SDate) (todayYear : Nat)
    (nowIso text : String) (fn iid ed : Option String) (pp : String)
    (db : DB) :
    (truthyStr (buildData parse todayYear text fn iid ed pp).inspectionDate
        = false →
      (saveCompleteData nowIso
          (buildData parse todayYear text fn iid ed pp) db).1 = none ∧
      (saveCompleteData nowIso
          (buildData parse todayYear text fn iid ed pp) db).2.facilities =
        db.facilities ∧
      (saveCompleteData nowIso
          (buildData parse todayYear text fn iid ed pp) db).2.reports =
        db.reports ∧
      (saveCompleteData nowIso
          (buildData parse todayYear text fn iid ed pp) db).2.violationRows =
        db.violationRows ∧
      (saveCompleteData nowIso
          (buildData parse todayYear text fn iid ed pp) db).2.equipmentRows =
        db.equipmentRows ∧
      (saveCompleteData nowIso
          (buildData parse todayYear text fn iid ed pp) db).2.errorLog =
        db.errorLog ++
          ["Database Save Blocked: Inspection date is null after normalization."]) ∧
    (∀ s, (buildData parse todayYear text fn iid ed pp).inspectionDate =
        some s →
      ∃ raw d, parse raw = some d ∧ s = isoFormat d) ∧
    (∀ r ∈ (saveCompleteData nowIso
        (buildData parse todayYear text fn iid ed pp) db).2.reports,
      r ∈ db.reports ∨
        r.inspectionDate =
          (buildData parse todayYear text fn iid ed pp).inspectionDate) := by
  refine ⟨?_, ?_, ?_⟩
  · intro hreject
    refine ⟨?_, ?_, ?_, ?_, ?_, ?_⟩ <;>
      simp [saveCompleteData, hreject]
  · intro s hs
    exact normalize_some_iso parse _ s (by
      have : (buildData parse todayYear text fn iid ed pp).inspectionDate =
          normalizeDateForComparison parse
            (match findDate parse text with
             | some a => if a = "" then ed else some a
             | none => ed) := rfl
      rw [← this]; exact hs)
  · intro r hr
    by_cases hgate :
        truthyStr (buildData parse todayYear text fn iid ed pp).inspectionDate
    · simp only [saveCompleteData, hgate, Bool.not_true, Bool.false_eq_true,
        if_false] at hr
      set data := buildData parse todayYear text fn iid ed pp with hdata
      have hrow : ∀ fid, (reportRowOf nowIso data db fid).inspectionId =
          data.inspectionId := fun _ => rfl
      rcases hins : data.inspectionId with _ | iid0
      · -- unconditional append
        simp only [insertReportOrIgnore, hrow, hins] at hr
        rcases List.mem_append.mp hr with h | h
        · exact Or.inl h
        · simp only [List.mem_singleton] at h
          subst h
          exact Or.inr rfl
      · simp only [insertReportOrIgnore, hrow, hins] at hr
        by_cases hdup : db.reports.any
            (fun r => r.inspectionId = some iid0) = true
        · rw [if_pos hdup] at hr
          exact Or.inl hr
        · rw [if_neg hdup] at hr
          rcases List.mem_append.mp hr with h | h
          · exact Or.inl h
          · simp only [List.mem_singleton] at h
            subst h
            exact Or.inr rfl
    · have hfalse : truthyStr
          (buildData parse todayYear text fn iid ed pp).inspectionDate =
          false := by simpa using hgate
      simp only [saveCompleteData, hfalse, Bool.not_false, if_true] at hr
      exact Or.inl hr

/-- C4 witness: garbage text is rejected by the save with no write, and
the date stored for the dated fixture text is the parser's ISO
rendering. -/
theorem C4_date_gate_witness :
    (saveCompleteData "T1"
        (buildData demoParse 2026 garbageText none none none "/tmp/g.pdf")
        emptyDB).1 = none ∧
    (∃ raw d, demoParse raw = some d ∧ "2024-03-15" = isoFormat d) := by
  constructor
  · exact ((C4_date_gate demoParse 2026 "T1" garbageText none none none
      "/tmp/g.pdf" emptyDB).1 (by decide)).1
  · exact (C4_date_gate demoParse 2026 "T1" demoDateText none none none
      "/tmp/g.pdf" emptyDB).2.1 "2024-03-15" (by decide)

/-! ### Idempotent report insert (C2) -/

theorem filter_nil_of_any_false {α : Type} (p : α → Bool) :
    ∀ l : List α, l.any p = false → l.filter p = [] := by
  intro l h
  induction l with
  | nil => rfl
  | cons x xs ih =>
    simp only [List.any_cons, Bool.or_eq_false_iff] at h
    simp [List.filter_cons, h.1, ih h.2]

/-- An accepted save appends exactly the assembled report row when no
row with its non-NULL inspection identifier exists yet. -/
theorem save_appends_report (nowIso : String) (data : ExtractData) (db : DB)
    (iid : String) (hiid : data.inspectionId = some iid)
    (hdate : truthyStr data.inspectionDate = true)
    (hnew : db.reports.any (fun r => r.inspectionId = some iid) = false) :
    (saveCompleteData nowIso data db).2.reports =
      db.reports ++ [reportRowOf nowIso data db
        (getOrCreateFacility db.facilities data 0).1] := by
  have hrow : ∀ fid, (reportRowOf nowIso data db fid).inspectionId =
      data.inspectionId := fun _ => rfl
  simp only [saveCompleteData, hdate, Bool.not_true, Bool.false_eq_true,
    if_false, insertReportOrIgnore, hrow, hiid, hnew]

/-- An accepted save whose identifier is already present leaves the
reports table unchanged and still returns a success value. -/
theorem save_ignores_duplicate (nowIso : String) (data : ExtractData)
    (db : DB) (iid : String) (hiid : data.inspectionId = some iid)
    (hdate : truthyStr data.inspectionDate = true)
    (hdup : db.reports.any (fun r => r.inspectionId = some iid) = true) :
    (saveCompleteData nowIso data db).2.reports = db.reports ∧
    (saveCompleteData nowIso data db).1 ≠ none := by
  have hrow : ∀ fid, (reportRowOf nowIso data db fid).inspectionId =
      data.inspectionId := fun _ => rfl
  constructor
  · simp only [saveCompleteData, hdate, Bool.not_true, Bool.false_eq_true,
      if_false, insertReportOrIgnore, hrow, hiid, hdup]
    simp
  · simp only [saveCompleteData, hdate, Bool.not_true, Bool.false_eq_true,
      if_false]
    simp

theorem length_saveViolations (vs : List Violation) (rid fid : Nat) :
    ∀ rows, (saveViolations vs rid fid rows).length =
      rows.length + vs.length := by
  induction vs with
  | nil => intro rows; simp [saveViolations]
  | cons v vs ih =>
    intro rows
    have : saveViolations (v :: vs) rid fid rows =
        saveViolations vs rid fid (rows ++ [{
          id := nextIdOf (rows.map (·.id))
          reportId := rid
          facilityId := fid
          violationCode := v.violationCode
          violationTitle := v.violationTitle
          observations := v.observations
          codeDescription := v.codeDescription
          isMajorViolation := v.isMajorViolation
          correctiveAction := v.correctiveAction
          severityLevel := v.severityLevel }]) := rfl
    rw [this, ih]
    simp
    omega

/-- An accepted save appends one violation row per extracted violation
(regardless of whether the report row itself was ignored). -/
theorem save_appends_violations (nowIso : String) (data : ExtractData)
    (db : DB) (hdate : truthyStr data.inspectionDate = true)
    (hvs : data.violations ≠ []) :
    (saveCompleteData nowIso data db).2.violationRows.length =
      db.violationRows.length + data.violations.length := by
  simp only [saveCompleteData, hdate, Bool.not_true, Bool.false_eq_true,
    if_false]
  split
  · next h => simp_all
  · exact length_saveViolations data.violations _ _ db.violationRows

/-- C2 (amended): for two saves carrying the same non-NULL inspection
identifier, the second insert of the InspectionReport row is a silent
no-op — no error, the save still returns a success value, the reports
table is unchanged, and exactly one `inspection_reports` row exists for
that identifier afterwards; but re-running the full save against the
same data is NOT free of side effects: the second run inserts the
report's violation rows (and an equipment row) again. -/
theorem C2_insert_or_ignore (nowIso1 nowIso2 : String) (data : ExtractData)
    (db : DB) (iid : String)
    (hiid : data.inspectionId = some iid)
    (hdate : truthyStr data.inspectionDate = true)
    (hnew : db.reports.any (fun r => r.inspectionId = some iid) = false) :
    ((saveCompleteData nowIso2 data
        (saveCompleteData nowIso1 data db).2).2.reports =
      (saveCompleteData nowIso1 data db).2.reports) ∧
    (((saveCompleteData nowIso2 data
        (saveCompleteData nowIso1 data db).2).2.reports.filter
        (fun r => r.inspectionId = some iid)).length = 1) ∧
    ((saveCompleteData nowIso2 data
        (saveCompleteData nowIso1 data db).2).1 ≠ none) ∧
    (data.violations ≠ [] →
      (saveCompleteData nowIso2 data
          (saveCompleteData nowIso1 data db).2).2.violationRows.length =
        (saveCompleteData nowIso1 data db).2.violationRows.length +
          data.violations.length) := by
  have h1 := save_appends_report nowIso1 data db iid hiid hdate hnew
  have hrowid : (reportRowOf nowIso1 data db
      (getOrCreateFacility db.facilities data 0).1).inspectionId =
      some iid := by rw [show (reportRowOf nowIso1 data db
        (getOrCreateFacility db.facilities data 0).1).inspectionId =
        data.inspectionId from rfl, hiid]
  have hdup : (saveCompleteData nowIso1 data db).2.reports.any
      (fun r => r.inspectionId = some iid) = true := by
    rw [h1, List.any_append]
    simp [hrowid]
  have h2 := save_ignores_duplicate nowIso2 data
    (saveCompleteData nowIso1 data db).2 iid hiid hdate hdup
  refine ⟨h2.1, ?_, h2.2, ?_⟩
  · rw [h2.1, h1, List.filter_append,
      filter_nil_of_any_false _ db.reports hnew]
    simp [hrowid]
  · intro hvs
    exact save_appends_violations nowIso2 data
      (saveCompleteData nowIso1 data db).2 hdate hvs

/-- C2 witness: the amended statement at the concrete fixture — the
duplicate save leaves one report row and re-inserts the violation row. -/
theorem C2_insert_or_ignore_witness :
    ((saveCompleteData "T2" dataDup
        (saveCompleteData "T1" dataDup emptyDB).2).2.reports.filter
        (fun r => r.inspectionId = some "ABC123")).length = 1 ∧
    (saveCompleteData "T2" dataDup
        (saveCompleteData "T1" dataDup emptyDB).2).2.violationRows.length =
      (saveCompleteData "T1" dataDup emptyDB).2.violationRows.length + 1 := by
  have h := C2_insert_or_ignore "T1" "T2" dataDup emptyDB "ABC123"
    rfl (by decide) rfl
  exact ⟨h.2.1, h.2.2.2 (by decide)⟩

/-- C2 counterexample: re-running the save of the same extraction data
(one violation, same inspection identifier) leaves exactly one report
row, but the violations and equipment tables grow — the persisted state
for that inspection is not left unchanged by the re-run. -/
theorem C2_counterexample :
    (saveCompleteData "T2" dataDup
        (saveCompleteData "T1" dataDup emptyDB).2).2.reports.length = 1 ∧
    (saveCompleteData "T1" dataDup emptyDB).2.violationRows.length = 1 ∧
    (saveCompleteData "T2" dataDup
        (saveCompleteData "T1" dataDup emptyDB).2).2.violationRows.length = 2 ∧
    (saveCompleteData "T2" dataDup
        (saveCompleteData "T1" dataDup emptyDB).2).2.equipmentRows.length =
      2 := by
  refine ⟨by decide, by decide, by decide, by decide⟩

/-! ### Violation boundary and the major flag (C5) -/

theorem pyWs_toUpper_fixed (c : Char) (h : pyWs c = true) : c.toUpper = c := by
  simp only [pyWs, Bool.or_eq_true, decide_eq_true_eq] at h
  rcases h with ((((h | h) | h) | h) | h) | h <;> subst h <;> decide

theorem prefixCL_iff : ∀ p l : List Char, prefixCL p l = true ↔ p <+: l := by
  intro p
  induction p with
  | nil => intro l; simp [prefixCL, List.nil_prefix]
  | cons x xs ih =>
    intro l
    cases l with
    | nil => simp [prefixCL]
    | cons y ys =>
      simp [prefixCL, ih ys, List.cons_prefix_cons]

theorem containsCL_characterisation : ∀ hay pat : List Char,
    containsCL hay pat = true ↔ pat <:+: hay := by
  intro hay pat
  induction hay with
  | nil =>
    simp only [containsCL, prefixCL_iff, List.prefix_nil, List.infix_nil]
  | cons c rest ih =>
    simp only [containsCL, Bool.or_eq_true, prefixCL_iff, ih]
    constructor
    · rintro (h | h)
      · exact h.isInfix
      · exact List.infix_cons h
    · rintro ⟨s, t, hst⟩
      cases s with
      | nil => left; exact ⟨t, by simpa using hst⟩
      | cons a s' =>
        right
        refine ⟨s', t, ?_⟩
        have := hst
        simp only [List.cons_append] at this
        exact (List.cons.injEq a _ c rest).mp this |>.2

theorem dropWhile_append_nonws (c : Char) (hc : pyWs c = false)
    (s r : List Char) :
    (s ++ (c :: r)).dropWhile pyWs = s.dropWhile pyWs ++ (c :: r) := by
  rw [List.dropWhile_append]
  split
  · next h =>
    rw [List.dropWhile_cons, hc]
    simp only [List.isEmpty_iff] at h
    rw [h]
    simp
  · rfl

theorem stripCL_within (l : List Char) : stripCL l <:+: l := by
  have h1 : l.dropWhile pyWs <:+ l := List.dropWhile_suffix pyWs
  have h2 : stripCL l <+: l.dropWhile pyWs := by
    unfold stripCL dropTrailWs
    conv_rhs => rw [← List.reverse_reverse (l.dropWhile pyWs)]
    exact List.reverse_prefix.mpr (List.dropWhile_suffix pyWs)
  exact h2.isInfix.trans h1.isInfix

/-- Because the token "MAJOR VIOLATION" neither starts nor ends in
whitespace, its presence in the upper-cased raw observation block is
equivalent to its presence in the upper-cased stripped block. -/
theorem contains_upper_strip (l : List Char) :
    containsCL (upperCL (stripCL l)) majorToken.data =
      containsCL (upperCL l) majorToken.data := by
  have hback : containsCL (upperCL (stripCL l)) majorToken.data = true →
      containsCL (upperCL l) majorToken.data = true := by
    rw [containsCL_characterisation, containsCL_characterisation]
    intro h
    exact h.trans (List.IsInfix.map Char.toUpper (stripCL_within l))
  have hfwd : containsCL (upperCL l) majorToken.data = true →
      containsCL (upperCL (stripCL l)) majorToken.data = true := by
    rw [containsCL_characterisation, containsCL_characterisation]
    rintro ⟨s, t, hst⟩
    set tok := majorToken.data with htok
    set m : List Char := (l.drop s.length).take tok.length with hm
    have hmap : m.map Char.toUpper = tok := by
      rw [hm, List.map_take, List.map_drop]
      show ((upperCL l).drop s.length).take tok.length = tok
      rw [← hst, List.append_assoc, List.drop_left, List.take_left]
    have hsplit : l = l.take s.length ++ m ++ (l.drop s.length).drop tok.length := by
      rw [hm, List.append_assoc, List.take_append_drop, List.take_append_drop]
    have hciM : ∃ a m₁, m = a :: m₁ ∧ Char.toUpper a = 'M' := by
      have : m.map Char.toUpper = 'M' :: "AJOR VIOLATION".data := hmap
      rcases List.map_eq_cons_iff.mp this with ⟨a, m₁, hm1, hfa, _⟩
      exact ⟨a, m₁, hm1, hfa⟩
    rcases hciM with ⟨a, m₁, hma, hfa⟩
    have hwa : pyWs a = false := by
      by_contra hwa'
      have hwa2 : pyWs a = true := by
        cases h : pyWs a
        · exact absurd h hwa'
        · rfl
      have := pyWs_toUpper_fixed a hwa2
      rw [this] at hfa
      subst hfa
      simp [pyWs] at hwa2
    have hciN : ∃ b m₂, m.reverse = b :: m₂ ∧ Char.toUpper b = 'N' := by
      have : m.reverse.map Char.toUpper = tok.reverse := by
        rw [List.map_reverse, hmap]
      have h2 : m.reverse.map Char.toUpper = 'N' :: "OITALOIV ROJAM".data := by
        rw [this]; rfl
      rcases List.map_eq_cons_iff.mp h2 with ⟨b, m₂, hm2, hfb, _⟩
      exact ⟨b, m₂, hm2, hfb⟩
    rcases hciN with ⟨b, m₂, hmb, hfb⟩
    have hwb : pyWs b = false := by
      by_contra hwb'
      have hwb2 : pyWs b = true := by
        cases h : pyWs b
        · exact absurd h hwb'
        · rfl
      have := pyWs_toUpper_fixed b hwb2
      rw [this] at hfb
      subst hfb
      simp [pyWs] at hwb2
    have hdw : l.dropWhile pyWs =
        (l.take s.length).dropWhile pyWs ++ m ++ (l.drop s.length).drop tok.length := by
      conv_lhs => rw [hsplit]
      rw [List.append_assoc, hma, List.cons_append,
        dropWhile_append_nonws a hwa, ← List.cons_append, ← hma,
        ← List.append_assoc]
    have hm' : m = m₂.reverse ++ [b] := by
      have := congrArg List.reverse hmb
      simpa using this
    have hstrip : stripCL l =
        (l.take s.length).dropWhile pyWs ++ m ++
          (((l.drop s.length).drop tok.length).reverse.dropWhile pyWs).reverse := by
      unfold stripCL dropTrailWs
      rw [hdw]
      rw [List.reverse_append, List.reverse_append, List.append_assoc]
      rw [hmb, List.cons_append, dropWhile_append_nonws b hwb]
      rw [hm']
      simp [List.reverse_cons, List.reverse_append, List.append_assoc]
    refine ⟨((l.take s.length).dropWhile pyWs).map Char.toUpper,
      ((((l.drop s.length).drop tok.length).reverse.dropWhile pyWs).reverse).map Char.toUpper, ?_⟩
    unfold upperCL
    rw [hstrip, List.map_append, List.map_append, hmap]
  cases hA : containsCL (upperCL (stripCL l)) majorToken.data with
  | true => rw [hback hA]
  | false =>
    cases hB : containsCL (upperCL l) majorToken.data with
    | true => rw [hfwd hB] at hA; exact absurd hA (by decide)
    | false => rfl

/-- Every violation produced by the enumeration loop is built by
`buildViolation` from some anchor match and tail. -/
theorem violLoop_shape : ∀ lines : List String, ∀ v ∈ violLoop lines,
    ∃ code title rest, v = buildViolation code title rest := by
  intro lines
  induction lines with
  | nil => intro v hv; simp [violLoop] at hv
  | cons line rest ih =>
    intro v hv
    cases hmatch : matchViolAnchor (pyStrip line) with
    | none =>
      simp only [violLoop, hmatch] at hv
      exact ih v hv
    | some ct =>
      obtain ⟨code, title⟩ := ct
      simp only [violLoop, hmatch] at hv
      rcases List.mem_cons.mp hv with h | h
      · exact ⟨code, title, rest, h⟩
      · exact ih v h

theorem buildViolation_major (code title : String) (following : List String) :
    (buildViolation code title following).isMajorViolation =
      containsCL (upperCL (buildViolation code title following).observations.data)
        majorToken.data := by
  show containsCL (upperCL (obsScan following).data) majorToken.data =
    containsCL (upperCL (pyStrip (obsScan following)).data) majorToken.data
  rw [show (pyStrip (obsScan following)).data = stripCL (obsScan following).data from rfl]
  exact (contains_upper_strip (obsScan following).data).symm

/-- C5 (amended): on the demo text `"1. POOL SAFETY\nObservations:
MAJOR VIOLATION present\nCode Description: ...\n2. NEXT ITEM"`,
violation extraction yields exactly TWO violations — item 1 with
`is_major_violation = true` and observation text exactly
"MAJOR VIOLATION present" (no bleed into item 2), and item 2 with empty
observations and `is_major_violation = false` — not one as claimed; and
for every input text, a parsed violation has `is_major_violation = true`
exactly when its captured observation text contains the literal token
"MAJOR VIOLATION" case-insensitively. -/
theorem C5_violation_boundary :
    ((extractViolations demoVText).map
        (fun v => (v.violationCode, v.observations, v.isMajorViolation)) =
      [("1", "MAJOR VIOLATION present", true), ("2", "", false)]) ∧
    (∀ text : String, ∀ v ∈ extractViolations text,
        v.isMajorViolation =
          containsCL (upperCL v.observations.data) majorToken.data) := by
  refine ⟨by decide, ?_⟩
  intro text v hv
  rcases violLoop_shape (pySplitLines text) v hv with ⟨code, title, rest, hveq⟩
  rw [hveq]
  exact buildViolation_major code title rest

/-- C5 witness: the general major-flag equivalence instantiated at the
first violation extracted from the demo text. -/
theorem C5_violation_boundary_witness :
    demoViol1 ∈ extractViolations demoVText ∧
    demoViol1.isMajorViolation =
      containsCL (upperCL demoViol1.observations.data) majorToken.data :=
  ⟨by decide, C5_violation_boundary.2 demoVText demoViol1 (by decide)⟩

/-- C5 counterexample: the demo text yields two extracted violations,
not exactly one as the spec claims. -/
theorem C5_counterexample :
    (extractViolations demoVText).length = 2 ∧
    ¬ (extractViolations demoVText).length = 1 :=
  ⟨by decide, by decide⟩

/-! ### Total extraction, graceful degradation (C9) -/

/-- C9: extraction is total (the embedding consists of total functions,
mirroring the `with_error_handling` decorator that converts any internal
exception into a `None` return): (1) empty input short-circuits to a
failed result with the store untouched; (2) garbage input degrades every
extractable field to absent (`none`, empty violations, empty water
chemistry, empty equipment probes) rather than failing; (3) the full
pipeline on garbage input returns a failed result and writes no record;
(4) fields degrade independently — on a mixed input the inspection date
parses while the permit id is absent and violations still extract. -/
theorem C9_total_extraction :
    (∀ (parse : String → Option SDate) (todayYear : Nat) (nowIso : String)
        (facilityName inspectionId expectedDate : Option String)
        (pdfPath : String) (db : DB),
      extractAndSaveFromText parse todayYear nowIso "" facilityName
          inspectionId expectedDate pdfPath db = (none, db)) ∧
    (((buildData demoParse 2024 garbageText none none none "p").permitId,
      (buildData demoParse 2024 garbageText none none none "p").establishmentId,
      (buildData demoParse 2024 garbageText none none none "p").inspectionDate,
      (buildData demoParse 2024 garbageText none none none "p").programIdentifier,
      (buildData demoParse 2024 garbageText none none none "p").rawAddress.streetAddress) =
     (none, none, none, none, none)) ∧
    (((buildData demoParse 2024 garbageText none none none "p").rawAddress.city,
      (buildData demoParse 2024 garbageText none none none "p").rawAddress.zipCode,
      (buildData demoParse 2024 garbageText none none none "p").permitHolder,
      (buildData demoParse 2024 garbageText none none none "p").phone,
      (buildData demoParse 2024 garbageText none none none "p").inspectionType) =
     (none, none, none, none, none)) ∧
    (((buildData demoParse 2024 garbageText none none none "p").inspectorName,
      (buildData demoParse 2024 garbageText none none none "p").inspectorPhone,
      (buildData demoParse 2024 garbageText none none none "p").reportRecipient,
      (buildData demoParse 2024 garbageText none none none "p").barcodeData,
      (buildData demoParse 2024 garbageText none none none "p").reportNotes) =
     (none, none, none, none, none)) ∧
    (((buildData demoParse 2024 garbageText none none none "p").reinspectionRequired,
      (buildData demoParse 2024 garbageText none none none "p").closureSuspensionRequired,
      (buildData demoParse 2024 garbageText none none none "p").violations,
      (buildData demoParse 2024 garbageText none none none "p").waterChemistry) =
     (false, false, [], emptyChem)) ∧
    (((buildData demoParse 2024 garbageText none none none "p").equipment.poolCapacityGallons,
      (buildData demoParse 2024 garbageText none none none "p").equipment.filterPump1Make) =
     (none, none)) ∧
    ((extractAndSaveFromText demoParse 2024 "T" garbageText none none none "p"
        emptyDB).1 = none ∧
     (extractAndSaveFromText demoParse 2024 "T" garbageText none none none "p"
        emptyDB).2.reports = []) ∧
    ((buildData demoParse 2024 demoDateText none none none "p").inspectionDate =
        some "2024-03-15" ∧
     (buildData demoParse 2024 demoDateText none none none "p").permitId = none ∧
     (buildData demoParse 2024 demoDateText none none none "p").violations.length = 2) := by
  refine ⟨fun _ _ _ _ _ _ _ _ => rfl, ?_, ?_, ?_, ?_, ?_, ⟨?_, ?_⟩,
    ⟨?_, ?_, ?_⟩⟩
  all_goals decide

/-- C9 witness: the empty-input clause at concrete arguments. -/
theorem C9_total_extraction_witness :
    extractAndSaveFromText demoParse 2024 "T" "" none none none "p" emptyDB =
      (none, emptyDB) :=
  C9_total_extraction.1 demoParse 2024 "T" none none none "p" emptyDB

end PoolScout
